import Mathlib

/-!
# hev-task.c : the task object of hev-task-system

A shallow embedding of `src/kern/task/hev-task.c`.

* Pointers are machine addresses (`Nat`, `0` is `NULL`); `uintptr_t` is 64 bits
  wide, `unsigned int` is 32 bits wide, and every operation that can wrap in C
  carries its modulus explicitly.
* The heap is a finite map from addresses to blocks.  A function that
  dereferences a pointer that is not a live block of the expected kind has no
  defined behaviour in C; the embedding returns `Fault.undefined` there.
* Constants that come from headers outside `src/` (`hev-task.h`, `poll.h`,
  the reactor header) are fields of `Config`.
* Collaborators whose bodies are outside `src/` (timer, scheduler, reactor)
  are fields of `Env`.  Every call that `hev-task.c` makes to a collaborator or
  to the allocator is appended to `World.trace`; a collaborator cannot edit
  the trace.
-/

namespace Hev

/-! ## Machine words -/

/-- Machine address (`void *`, `HevTask *`, function pointers). -/
abbrev Ptr := Nat

/-- The null pointer. -/
def NULL : Ptr := 0

/-- Modulus of `uintptr_t` arithmetic. -/
def UINTPTR_MOD : Nat := 2 ^ 64

/-- Modulus of `unsigned int` arithmetic. -/
def UINT_MOD : Nat := 2 ^ 32

/-- `#define STACK_OVERFLOW_DETECTION_TAG (0xdeadbeefu)` -/
def STACK_OVERFLOW_DETECTION_TAG : Nat := 0xdeadbeef

/-- `#define HEV_TASK_STACK_SIZE (64 * 1024)` -/
def HEV_TASK_STACK_SIZE : Int := 64 * 1024

/-- `#define ALIGN_DOWN(addr, align) ((addr) & ~((typeof(addr))align - 1))`
with `addr : uintptr_t`: `align` is converted to `uintptr_t`, one is subtracted
modulo `2 ^ 64`, the result is complemented on 64 bits and and-ed with `addr`. -/
def ALIGN_DOWN (addr align : Nat) : Nat :=
  addr &&& (UINTPTR_MOD - 1 - ((align % UINTPTR_MOD + UINTPTR_MOD - 1) % UINTPTR_MOD))

/-! ## Constants declared outside `src/` -/

/-- Constants that `hev-task.c` uses and that are declared in headers which are
not part of `src/`, together with the build-time switch
`ENABLE_STACK_OVERFLOW_DETECTION`. -/
structure Config where
  HEV_TASK_PRIORITY_MIN : Int
  HEV_TASK_PRIORITY_MAX : Int
  HEV_TASK_PRIORITY_DEFAULT : Int
  ENABLE_STACK_OVERFLOW_DETECTION : Bool
  POLLIN : Nat
  POLLOUT : Nat
  POLLERR : Nat
  HEV_TASK_IO_REACTOR_EV_RO : Nat
  HEV_TASK_IO_REACTOR_EV_WO : Nat
  HEV_TASK_IO_REACTOR_EV_ER : Nat

/-! ## Data model -/

/-- Modelled from the spec: the enumeration `HevTaskState` of `hev-task.h`
(not in `src/`).  The spec lists the states STOPPED, RUNNING, WAITING and makes
STOPPED the initial one, the state of a zero-initialised record. -/
inductive HevTaskState
  | HEV_TASK_STOPPED
  | HEV_TASK_RUNNING
  | HEV_TASK_WAITING
  deriving DecidableEq, Repr

/-- The scheduling record embedded in a task: a back-pointer to its owner. -/
structure HevTaskSchedEntity where
  task : Ptr
  deriving DecidableEq, Repr

/-- Modelled from the spec: the record `struct _HevTask` of
`hev-task-private.h` (not in `src/`), with exactly the fields `hev-task.c`
reads or writes.  `ref_count` is unsigned (spec, data model) and is taken as a
32-bit `unsigned int`; the priorities and `stack_size` are `int`. -/
structure HevTask where
  stack : Ptr
  stack_top : Ptr
  stack_size : Int
  entry : Ptr
  data : Ptr
  ref_count : Nat
  priority : Int
  next_priority : Int
  sched_key : Int
  state : HevTaskState
  sched_entity : HevTaskSchedEntity
  deriving DecidableEq, Repr

/-- The record `hev_malloc0 (sizeof (HevTask))` returns: all bytes zero. -/
def HevTask.zero : HevTask :=
  { stack := NULL, stack_top := NULL, stack_size := 0, entry := NULL, data := NULL,
    ref_count := 0, priority := 0, next_priority := 0, sched_key := 0,
    state := HevTaskState.HEV_TASK_STOPPED, sched_entity := { task := NULL } }

/-- Operation of a reactor setup event. -/
inductive HevTaskIOReactorOp
  | HEV_TASK_IO_REACTOR_OP_ADD
  | HEV_TASK_IO_REACTOR_OP_MOD
  | HEV_TASK_IO_REACTOR_OP_DEL
  deriving DecidableEq, Repr

/-- Owner handle of a setup event: `NULL` or `&task->sched_entity`. -/
inductive EntityRef
  | null
  | sched_entity (task : Ptr)
  deriving DecidableEq, Repr

/-- What `hev_task_io_reactor_setup_event_set` stores in a setup event. -/
structure HevTaskIOReactorSetupEvent where
  fd : Int
  op : HevTaskIOReactorOp
  events : Nat
  data : EntityRef
  deriving DecidableEq, Repr

/-- A call from `hev-task.c` to the allocator or to a collaborator, with the
arguments it was given (and, for the allocator, the pointer it returned). -/
inductive Call
  | hev_malloc0 (result : Ptr)
  | hev_malloc (size : Int) (result : Ptr)
  | hev_free (p : Ptr)
  | hev_task_timer_wait (timer : Ptr) (microseconds : Nat) (task : Ptr)
  | hev_task_system_run_new_task (task : Ptr)
  | hev_task_system_wakeup_task (task : Ptr)
  | hev_task_system_schedule (type : Nat)
  | hev_task_system_kill_current_task
  | hev_task_io_reactor_setup (reactor : Ptr) (event : HevTaskIOReactorSetupEvent) (count : Nat)
  deriving DecidableEq, Repr

/-- A live heap block: a task record, or a raw buffer (a stack) of which only
the lowest `unsigned int` is tracked (`none`: never written). -/
inductive Block
  | task (t : HevTask)
  | raw (word0 : Option Nat)
  deriving DecidableEq, Repr

/-- Modelled from the spec: the system context (`hev-task-system-private.h`,
not in `src/`): the running task, the reactor and timer handles and the ready
queue. -/
structure HevTaskSystemContext where
  current_task : Ptr
  reactor : Ptr
  timer : Ptr
  ready : List Ptr
  deriving DecidableEq, Repr

/-- Program state: the heap, the system context, and the calls issued so far. -/
structure World where
  heap : Ptr → Option Block
  ctx : HevTaskSystemContext
  trace : List Call

/-- Undefined behaviour (bad pointer) or a failed `assert`. -/
inductive Fault
  | undefined
  | assertion_failed
  deriving DecidableEq, Repr

/-- The collaborators of `hev-task.c`: functions of this repository whose
bodies are outside `src/`.  Each maps the state before the call to its return
value and the state after it. -/
structure Env where
  hev_task_timer_wait : World → Ptr → Nat → Ptr → Nat × World
  hev_task_system_run_new_task : World → Ptr → World
  hev_task_system_wakeup_task : World → Ptr → World
  hev_task_system_schedule : World → Nat → World
  hev_task_system_kill_current_task : World → World
  hev_task_io_reactor_setup : World → Ptr → HevTaskIOReactorSetupEvent → Nat → Int × World
  hev_task_io_reactor_get_oneshot : World → Int

/-! ## Heap primitives -/

/-- Write block `b` at address `p`. -/
def World.store (w : World) (p : Ptr) (b : Block) : World :=
  { w with heap := fun q => if q = p then some b else w.heap q }

/-- Remove the block at address `p`. -/
def World.release (w : World) (p : Ptr) : World :=
  { w with heap := fun q => if q = p then none else w.heap q }

/-- Append a call to the trace. -/
def World.log (w : World) (c : Call) : World :=
  { w with trace := w.trace ++ [c] }

/-- `hev_malloc0 (sizeof (HevTask))` when the allocator answers `result`:
`NULL` on failure, else the address of a zero-filled record. -/
def hev_malloc0 (w : World) (result : Ptr) : Ptr × World :=
  if result = NULL then (NULL, w.log (Call.hev_malloc0 NULL))
  else (result, (w.store result (Block.task HevTask.zero)).log (Call.hev_malloc0 result))

/-- `hev_malloc (size)` when the allocator answers `result`: `NULL` on failure,
else the address of a buffer with indeterminate content. -/
def hev_malloc (w : World) (size : Int) (result : Ptr) : Ptr × World :=
  if result = NULL then (NULL, w.log (Call.hev_malloc size NULL))
  else (result, (w.store result (Block.raw none)).log (Call.hev_malloc size result))

/-- `hev_free (p)`: releases a live block; anything else is undefined. -/
def hev_free (w : World) (p : Ptr) : Except Fault World :=
  match w.heap p with
  | some _ => Except.ok ((w.release p).log (Call.hev_free p))
  | none => Except.error Fault.undefined

/-- Dereference `self` as a task record. -/
def World.task (w : World) (self : Ptr) : Except Fault HevTask :=
  match w.heap self with
  | some (Block.task t) => Except.ok t
  | _ => Except.error Fault.undefined

/-- Read the lowest `unsigned int` of the buffer at `p`. -/
def World.word0 (w : World) (p : Ptr) : Except Fault Nat :=
  match w.heap p with
  | some (Block.raw (some v)) => Except.ok v
  | _ => Except.error Fault.undefined

/-- Write the lowest `unsigned int` of the buffer at `p`. -/
def World.poke (w : World) (p : Ptr) (v : Nat) : Except Fault World :=
  match w.heap p with
  | some (Block.raw _) => Except.ok (w.store p (Block.raw (some v)))
  | _ => Except.error Fault.undefined

/-! ## Calls to collaborators -/

/-- Call `hev_task_timer_wait (timer, microseconds, task)`. -/
def hev_task_timer_wait (env : Env) (w : World) (timer : Ptr) (microseconds : Nat)
    (task : Ptr) : Nat × World :=
  let r := env.hev_task_timer_wait w timer microseconds task
  (r.1, { r.2 with trace := w.trace ++ [Call.hev_task_timer_wait timer microseconds task] })

/-- Call `hev_task_system_run_new_task (task)`. -/
def hev_task_system_run_new_task (env : Env) (w : World) (task : Ptr) : World :=
  { env.hev_task_system_run_new_task w task with
    trace := w.trace ++ [Call.hev_task_system_run_new_task task] }

/-- Call `hev_task_system_wakeup_task (task)`. -/
def hev_task_system_wakeup_task (env : Env) (w : World) (task : Ptr) : World :=
  { env.hev_task_system_wakeup_task w task with
    trace := w.trace ++ [Call.hev_task_system_wakeup_task task] }

/-- Call `hev_task_system_schedule (type)`. -/
def hev_task_system_schedule (env : Env) (w : World) (type : Nat) : World :=
  { env.hev_task_system_schedule w type with
    trace := w.trace ++ [Call.hev_task_system_schedule type] }

/-- Call `hev_task_system_kill_current_task ()`. -/
def hev_task_system_kill_current_task (env : Env) (w : World) : World :=
  { env.hev_task_system_kill_current_task w with
    trace := w.trace ++ [Call.hev_task_system_kill_current_task] }

/-- Call `hev_task_io_reactor_setup (reactor, &event, count)`. -/
def hev_task_io_reactor_setup (env : Env) (w : World) (reactor : Ptr)
    (event : HevTaskIOReactorSetupEvent) (count : Nat) : Int × World :=
  let r := env.hev_task_io_reactor_setup w reactor event count
  (r.1, { r.2 with trace := w.trace ++ [Call.hev_task_io_reactor_setup reactor event count] })

/-! ## hev-task.c -/

/-- `hev_task_new (stack_size)`.  `rec_reply` is what the allocator answers to
`hev_malloc0 (sizeof (HevTask))` and `stack_reply` what it answers to
`hev_malloc (stack_size)` (not called when the first answer is `NULL`). -/
def hev_task_new (c : Config) (w : World) (stack_size : Int) (rec_reply stack_reply : Ptr) :
    Except Fault (Ptr × World) :=
  let r := hev_malloc0 w rec_reply
  let self := r.1
  let w := r.2
  if self = NULL then Except.ok (NULL, w)
  else do
    let t ← w.task self
    let w := w.store self (Block.task { t with ref_count := 1 })
    let t ← w.task self
    let w := w.store self (Block.task { t with next_priority := c.HEV_TASK_PRIORITY_DEFAULT })
    let stack_size := if stack_size = -1 then HEV_TASK_STACK_SIZE else stack_size
    let r := hev_malloc w stack_size stack_reply
    let w := r.2
    let t ← w.task self
    let w := w.store self (Block.task { t with stack := r.1 })
    let t ← w.task self
    if t.stack = NULL then do
      let w ← hev_free w self
      Except.ok (NULL, w)
    else do
      let w ← if c.ENABLE_STACK_OVERFLOW_DETECTION
        then w.poke t.stack STACK_OVERFLOW_DETECTION_TAG else Except.ok w
      let t ← w.task self
      let stack_addr := (((t.stack : Int) + stack_size) % (UINTPTR_MOD : Int)).toNat
      let w := w.store self (Block.task { t with stack_top := ALIGN_DOWN stack_addr 16 })
      let t ← w.task self
      let w := w.store self (Block.task { t with stack_size := stack_size })
      let t ← w.task self
      let w := w.store self (Block.task { t with sched_entity := { task := self } })
      Except.ok (self, w)

/-- `hev_task_ref (self)`. -/
def hev_task_ref (w : World) (self : Ptr) : Except Fault (Ptr × World) := do
  let t ← w.task self
  let w := w.store self (Block.task { t with ref_count := (t.ref_count + 1) % UINT_MOD })
  Except.ok (self, w)

/-- `hev_task_unref (self)`. -/
def hev_task_unref (c : Config) (w : World) (self : Ptr) : Except Fault World := do
  let t ← w.task self
  let w := w.store self
    (Block.task { t with ref_count := (t.ref_count + UINT_MOD - 1) % UINT_MOD })
  let t ← w.task self
  if t.ref_count ≠ 0 then Except.ok w
  else do
    let ok ← if c.ENABLE_STACK_OVERFLOW_DETECTION
      then (do
        let v ← w.word0 t.stack
        Except.ok (decide (v = STACK_OVERFLOW_DETECTION_TAG)))
      else Except.ok true
    if ok = false then Except.error Fault.assertion_failed
    else do
      let w ← hev_free w t.stack
      hev_free w self

/-- `hev_task_self ()`. -/
def hev_task_self (w : World) : Ptr :=
  w.ctx.current_task

/-- `hev_task_get_state (self)`. -/
def hev_task_get_state (w : World) (self : Ptr) : Except Fault HevTaskState := do
  let t ← w.task self
  Except.ok t.state

/-- `hev_task_set_priority (self, priority)`. -/
def hev_task_set_priority (c : Config) (w : World) (self : Ptr) (priority : Int) :
    Except Fault World := do
  let priority :=
    if priority < c.HEV_TASK_PRIORITY_MIN then c.HEV_TASK_PRIORITY_MIN
    else if priority > c.HEV_TASK_PRIORITY_MAX then c.HEV_TASK_PRIORITY_MAX
    else priority
  let t ← w.task self
  Except.ok (w.store self (Block.task { t with next_priority := priority }))

/-- `hev_task_get_priority (self)`. -/
def hev_task_get_priority (w : World) (self : Ptr) : Except Fault Int := do
  let t ← w.task self
  Except.ok t.next_priority

/-- `hev_task_fd_events_to_reactor (events)`; `events` is an `unsigned int`. -/
def hev_task_fd_events_to_reactor (c : Config) (events : Nat) : Nat :=
  let reactor_events := 0
  let reactor_events :=
    if events &&& c.POLLIN ≠ 0 then reactor_events ||| c.HEV_TASK_IO_REACTOR_EV_RO
    else reactor_events
  let reactor_events :=
    if events &&& c.POLLOUT ≠ 0 then reactor_events ||| c.HEV_TASK_IO_REACTOR_EV_WO
    else reactor_events
  let reactor_events :=
    if events &&& c.POLLERR ≠ 0 then reactor_events ||| c.HEV_TASK_IO_REACTOR_EV_ER
    else reactor_events
  reactor_events

/-- `hev_task_add_fd (self, fd, events)`. -/
def hev_task_add_fd (c : Config) (env : Env) (w : World) (self : Ptr) (fd : Int)
    (events : Nat) : Int × World :=
  let reactor := w.ctx.reactor
  let event : HevTaskIOReactorSetupEvent :=
    { fd := fd, op := HevTaskIOReactorOp.HEV_TASK_IO_REACTOR_OP_ADD,
      events := hev_task_fd_events_to_reactor c events,
      data := EntityRef.sched_entity self }
  hev_task_io_reactor_setup env w reactor event 1

/-- `hev_task_mod_fd (self, fd, events)`. -/
def hev_task_mod_fd (c : Config) (env : Env) (w : World) (self : Ptr) (fd : Int)
    (events : Nat) : Int × World :=
  let reactor := w.ctx.reactor
  let event : HevTaskIOReactorSetupEvent :=
    { fd := fd, op := HevTaskIOReactorOp.HEV_TASK_IO_REACTOR_OP_MOD,
      events := hev_task_fd_events_to_reactor c events,
      data := EntityRef.sched_entity self }
  hev_task_io_reactor_setup env w reactor event 1

/-- `hev_task_del_fd (self, fd)`. -/
def hev_task_del_fd (env : Env) (w : World) (_self : Ptr) (fd : Int) : Int × World :=
  let reactor := w.ctx.reactor
  let event : HevTaskIOReactorSetupEvent :=
    { fd := fd, op := HevTaskIOReactorOp.HEV_TASK_IO_REACTOR_OP_DEL,
      events := 0, data := EntityRef.null }
  hev_task_io_reactor_setup env w reactor event 1

/-- `hev_task_res_fd (self, fd, events)`. -/
def hev_task_res_fd (c : Config) (env : Env) (w : World) (self : Ptr) (fd : Int)
    (events : Nat) : Int × World :=
  if env.hev_task_io_reactor_get_oneshot w = 0 then (0, w)
  else hev_task_mod_fd c env w self fd events

/-- `hev_task_wakeup (task)`. -/
def hev_task_wakeup (env : Env) (w : World) (task : Ptr) : World :=
  hev_task_system_wakeup_task env w task

/-- `hev_task_yield (type)`. -/
def hev_task_yield (env : Env) (w : World) (type : Nat) : World :=
  hev_task_system_schedule env w type

/-- `hev_task_usleep (microseconds)`; the argument is an `unsigned int`. -/
def hev_task_usleep (env : Env) (w : World) (microseconds : Nat) : Nat × World :=
  if microseconds = 0 then (0, w)
  else
    let ctx := w.ctx
    hev_task_timer_wait env w ctx.timer microseconds ctx.current_task

/-- `hev_task_sleep (milliseconds)`: the product `milliseconds * 1000` is an
`unsigned int` product and wraps modulo `2 ^ 32`. -/
def hev_task_sleep (env : Env) (w : World) (milliseconds : Nat) : Nat × World :=
  let r := hev_task_usleep env w ((milliseconds * 1000) % UINT_MOD)
  (r.1 / 1000, r.2)

/-- `hev_task_run (self, entry, data)`. -/
def hev_task_run (env : Env) (w : World) (self : Ptr) (entry data : Ptr) :
    Except Fault World := do
  let t ← w.task self
  if t.state ≠ HevTaskState.HEV_TASK_STOPPED then Except.ok w
  else do
    let w := w.store self (Block.task { t with entry := entry })
    let t ← w.task self
    let w := w.store self (Block.task { t with data := data })
    let t ← w.task self
    let w := w.store self (Block.task { t with priority := t.next_priority })
    let t ← w.task self
    let w := w.store self (Block.task { t with sched_key := t.next_priority })
    Except.ok (hev_task_system_run_new_task env w self)

/-- `hev_task_exit ()`. -/
def hev_task_exit (env : Env) (w : World) : World :=
  hev_task_system_kill_current_task env w

/-- `hev_task_get_data (self)`. -/
def hev_task_get_data (w : World) (self : Ptr) : Except Fault Ptr := do
  let t ← w.task self
  Except.ok t.data

/-! ## Call sequences -/

/-- One reference-count call on a task handle. -/
inductive RefOp
  | ref
  | unref
  deriving DecidableEq, Repr

/-- Run a sequence of `hev_task_ref` / `hev_task_unref` calls, left to right.
Every call is made on the handle that the previous `hev_task_ref` returned
(initially `self`); the final handle is returned with the final state. -/
def run_ref_ops (c : Config) : World → Ptr → List RefOp → Except Fault (Ptr × World)
  | w, self, [] => Except.ok (self, w)
  | w, self, RefOp.ref :: ops =>
    match hev_task_ref w self with
    | Except.ok r => run_ref_ops c r.2 r.1 ops
    | Except.error e => Except.error e
  | w, self, RefOp.unref :: ops =>
    match hev_task_unref c w self with
    | Except.ok w => run_ref_ops c w self ops
    | Except.error e => Except.error e

/-- One call of the task interface on a task handle, with its arguments. -/
inductive TaskOp
  | set_priority (priority : Int)
  | ref
  | run (entry data : Ptr)
  | add_fd (fd : Int) (events : Nat)
  | mod_fd (fd : Int) (events : Nat)
  | del_fd (fd : Int)
  | res_fd (fd : Int) (events : Nat)
  deriving DecidableEq, Repr

/-- Whether the call is a `hev_task_run`. -/
def TaskOp.is_run : TaskOp → Bool
  | TaskOp.run _ _ => true
  | _ => false

/-- Make one call of the task interface on `self`. -/
def run_task_op (c : Config) (env : Env) (w : World) (self : Ptr) :
    TaskOp → Except Fault World
  | TaskOp.set_priority priority => hev_task_set_priority c w self priority
  | TaskOp.ref =>
    match hev_task_ref w self with
    | Except.ok r => Except.ok r.2
    | Except.error e => Except.error e
  | TaskOp.run entry data => hev_task_run env w self entry data
  | TaskOp.add_fd fd events => Except.ok (hev_task_add_fd c env w self fd events).2
  | TaskOp.mod_fd fd events => Except.ok (hev_task_mod_fd c env w self fd events).2
  | TaskOp.del_fd fd => Except.ok (hev_task_del_fd env w self fd).2
  | TaskOp.res_fd fd events => Except.ok (hev_task_res_fd c env w self fd events).2

/-- Make a sequence of calls of the task interface on `self`, left to right. -/
def run_task_ops (c : Config) (env : Env) : World → Ptr → List TaskOp → Except Fault World
  | w, _, [] => Except.ok w
  | w, self, op :: ops =>
    match run_task_op c env w self op with
    | Except.ok w1 => run_task_ops c env w1 self ops
    | Except.error e => Except.error e

/-- The priorities of the task at `self` are inside the configured range: the
pending priority always, the active priority and the scheduling key once the
task has been run (`ran`); a task that has not been run yet is STOPPED. -/
def PrioritiesInRange (c : Config) (w : World) (self : Ptr) (ran : Bool) : Prop :=
  ∃ t, w.heap self = some (Block.task t) ∧
    c.HEV_TASK_PRIORITY_MIN ≤ t.next_priority ∧ t.next_priority ≤ c.HEV_TASK_PRIORITY_MAX ∧
    (ran = true →
      c.HEV_TASK_PRIORITY_MIN ≤ t.priority ∧ t.priority ≤ c.HEV_TASK_PRIORITY_MAX ∧
      c.HEV_TASK_PRIORITY_MIN ≤ t.sched_key ∧ t.sched_key ≤ c.HEV_TASK_PRIORITY_MAX) ∧
    (ran = false → t.state = HevTaskState.HEV_TASK_STOPPED)

/-! ## Assumptions on collaborators -/

/-- The reactor's `setup` does not write to the heap: it records the owner
handle it is given but owns no task. -/
def ReactorSetupKeepsHeap (env : Env) : Prop :=
  ∀ (w : World) (reactor : Ptr) (event : HevTaskIOReactorSetupEvent) (count : Nat),
    (env.hev_task_io_reactor_setup w reactor event count).2.heap = w.heap

/-- The timer service never reports a residual larger than the wait it was
asked for. -/
def TimerResidualBounded (env : Env) : Prop :=
  ∀ (w : World) (timer : Ptr) (microseconds : Nat) (task : Ptr),
    (env.hev_task_timer_wait w timer microseconds task).1 ≤ microseconds

/-- The scheduler's `run_new_task` leaves a live task live and in a state other
than STOPPED. -/
def RunNewTaskLeavesNonStopped (env : Env) : Prop :=
  ∀ (w : World) (task : Ptr) (t : HevTask), w.heap task = some (Block.task t) →
    ∃ t', (env.hev_task_system_run_new_task w task).heap task = some (Block.task t') ∧
      t'.state ≠ HevTaskState.HEV_TASK_STOPPED

/-- The scheduler's `run_new_task` leaves a live task live and does not
overwrite its entry, datum, priority, scheduling key and pending priority. -/
def RunNewTaskKeepsClosure (env : Env) : Prop :=
  ∀ (w : World) (task : Ptr) (t : HevTask), w.heap task = some (Block.task t) →
    ∃ t', (env.hev_task_system_run_new_task w task).heap task = some (Block.task t') ∧
      t'.entry = t.entry ∧ t'.data = t.data ∧ t'.priority = t.priority ∧
      t'.sched_key = t.sched_key ∧ t'.next_priority = t.next_priority

/-! ## Example instances

Concrete constants, collaborators and states on which the theorems below are
instantiated. -/

/-- An example scheduler routine for `hev_task_system_run_new_task`, after the
spec's description of `run`: it marks the task WAITING and appends it to the
ready queue. -/
def example_run_new_task (w : World) (task : Ptr) : World :=
  match w.heap task with
  | some (Block.task t) =>
    { w with
      heap := fun q =>
        if q = task then some (Block.task { t with state := HevTaskState.HEV_TASK_WAITING })
        else w.heap q
      ctx := { w.ctx with ready := w.ctx.ready ++ [task] } }
  | _ => w

/-- An example timer routine for `hev_task_timer_wait`: a wait that is cut
short by a wakeup at half of the requested time, so that the residual is the
remaining half. -/
def example_timer_wait (w : World) (_timer : Ptr) (microseconds : Nat) (_task : Ptr) :
    Nat × World :=
  (microseconds / 2, w)

/-- Collaborators used to instantiate the theorems. -/
def exampleEnv : Env :=
  { hev_task_timer_wait := example_timer_wait
    hev_task_system_run_new_task := example_run_new_task
    hev_task_system_wakeup_task := fun w _ => w
    hev_task_system_schedule := fun w _ => w
    hev_task_system_kill_current_task := fun w => w
    hev_task_io_reactor_setup := fun w _ _ _ => (0, w)
    hev_task_io_reactor_get_oneshot := fun _ => 1 }

/-- Constants used to instantiate the theorems: priorities 0..15 with default
8, the Linux `poll.h` bits and distinct reactor bits. -/
def exampleConfig : Config :=
  { HEV_TASK_PRIORITY_MIN := 0
    HEV_TASK_PRIORITY_MAX := 15
    HEV_TASK_PRIORITY_DEFAULT := 8
    ENABLE_STACK_OVERFLOW_DETECTION := true
    POLLIN := 1
    POLLOUT := 4
    POLLERR := 8
    HEV_TASK_IO_REACTOR_EV_RO := 1
    HEV_TASK_IO_REACTOR_EV_WO := 4
    HEV_TASK_IO_REACTOR_EV_ER := 8 }

/-- An empty heap with an idle system context. -/
def emptyWorld : World :=
  { heap := fun _ => none
    ctx := { current_task := NULL, reactor := 100, timer := 200, ready := [] }
    trace := [] }

/-- A task record as `hev_task_new` leaves it, with its stack of 4096 bytes at
address 8192. -/
def exampleTask : HevTask :=
  { HevTask.zero with
    stack := 8192, stack_top := 12288, stack_size := 4096, ref_count := 1,
    next_priority := 8, sched_entity := { task := 4096 } }

/-- A heap holding `exampleTask` at address 4096 and its stamped stack. -/
def exampleWorld : World :=
  { heap := fun q =>
      if q = 4096 then some (Block.task exampleTask)
      else if q = 8192 then some (Block.raw (some STACK_OVERFLOW_DETECTION_TAG))
      else none
    ctx := { current_task := 4096, reactor := 100, timer := 200, ready := [] }
    trace := [] }

/-- The example collaborators with a reactor that rejects every setup event
with status `-1`. -/
def failingReactorEnv : Env :=
  { exampleEnv with hev_task_io_reactor_setup := fun w _ _ _ => (-1, w) }

/-- The example collaborators with a reactor that is not one-shot. -/
def levelTriggeredEnv : Env :=
  { exampleEnv with hev_task_io_reactor_get_oneshot := fun _ => 0 }

/-- The example heap after the task has overrun its stack: the lowest word of
the stack no longer holds the tag. -/
def overrunWorld : World :=
  { exampleWorld with
    heap := fun q =>
      if q = 4096 then some (Block.task exampleTask)
      else if q = 8192 then some (Block.raw (some 0))
      else none }

/-! ## Basic facts about the heap primitives -/

@[simp] theorem store_heap (w : World) (p : Ptr) (b : Block) (q : Ptr) :
    (w.store p b).heap q = if q = p then some b else w.heap q := rfl

@[simp] theorem store_trace (w : World) (p : Ptr) (b : Block) :
    (w.store p b).trace = w.trace := rfl

@[simp] theorem store_ctx (w : World) (p : Ptr) (b : Block) :
    (w.store p b).ctx = w.ctx := rfl

@[simp] theorem release_heap (w : World) (p q : Ptr) :
    (w.release p).heap q = if q = p then none else w.heap q := rfl

@[simp] theorem release_trace (w : World) (p : Ptr) :
    (w.release p).trace = w.trace := rfl

@[simp] theorem release_ctx (w : World) (p : Ptr) :
    (w.release p).ctx = w.ctx := rfl

@[simp] theorem log_heap (w : World) (c : Call) : (w.log c).heap = w.heap := rfl

@[simp] theorem log_trace (w : World) (c : Call) : (w.log c).trace = w.trace ++ [c] := rfl

@[simp] theorem log_ctx (w : World) (c : Call) : (w.log c).ctx = w.ctx := rfl

theorem store_heap_self (w : World) (p : Ptr) (b : Block) :
    (w.store p b).heap p = some b := by
  simp

theorem task_of_heap {w : World} {self : Ptr} {t : HevTask}
    (h : w.heap self = some (Block.task t)) : w.task self = Except.ok t := by
  simp [World.task, h]

@[simp] theorem task_store_same (w : World) (self : Ptr) (t : HevTask) :
    (w.store self (Block.task t)).task self = Except.ok t := by
  simp [World.task]

/-- Storing a record over a live block leaves the world unchanged when the
record is the one already there. -/
theorem store_same {w : World} {self : Ptr} {b : Block} (h : w.heap self = some b) :
    w.store self b = w := by
  cases w with
  | mk heap ctx trace =>
    simp only [World.store, World.mk.injEq, and_true]
    funext q
    by_cases hq : q = self
    · subst hq; simpa using h.symm
    · simp [hq]

@[simp] theorem store_store (w : World) (self : Ptr) (a b : Block) :
    (w.store self a).store self b = w.store self b := by
  cases w with
  | mk heap ctx trace =>
    simp only [World.store, World.mk.injEq, and_true]
    funext q
    by_cases hq : q = self <;> simp [hq]

/-! ## Priority -/

/-- C1. After `hev_task_set_priority (T, p)` on a live task, with
`HEV_TASK_PRIORITY_MIN ≤ HEV_TASK_PRIORITY_MAX`, `hev_task_get_priority (T)`
returns `p` clamped into the priority range: the minimum when `p` is below it,
the maximum when `p` is above it, and `p` itself otherwise. -/
theorem set_priority_then_get_priority (c : Config) (w : World) (self : Ptr) (t : HevTask)
    (p : Int) (hrange : c.HEV_TASK_PRIORITY_MIN ≤ c.HEV_TASK_PRIORITY_MAX)
    (hlive : w.heap self = some (Block.task t)) :
    ∃ w', hev_task_set_priority c w self p = Except.ok w' ∧
      (p < c.HEV_TASK_PRIORITY_MIN →
        hev_task_get_priority w' self = Except.ok c.HEV_TASK_PRIORITY_MIN) ∧
      (p > c.HEV_TASK_PRIORITY_MAX →
        hev_task_get_priority w' self = Except.ok c.HEV_TASK_PRIORITY_MAX) ∧
      (c.HEV_TASK_PRIORITY_MIN ≤ p → p ≤ c.HEV_TASK_PRIORITY_MAX →
        hev_task_get_priority w' self = Except.ok p) := by
  refine ⟨_, by simp [hev_task_set_priority, task_of_heap hlive, bind, Except.bind]; rfl, ?_, ?_, ?_⟩
  · intro h
    simp [hev_task_get_priority, bind, Except.bind, h]
  · intro h
    have h1 : ¬ p < c.HEV_TASK_PRIORITY_MIN := by omega
    simp [hev_task_get_priority, bind, Except.bind, h, h1]
  · intro h1 h2
    have h1 : ¬ p < c.HEV_TASK_PRIORITY_MIN := by omega
    have h2 : ¬ p > c.HEV_TASK_PRIORITY_MAX := by omega
    simp [hev_task_get_priority, bind, Except.bind, h1, h2]

/-- C1 instance: priority 99 on the example task is clamped to 15. -/
theorem set_priority_then_get_priority_witness :
    ∃ w', hev_task_set_priority exampleConfig exampleWorld 4096 99 = Except.ok w' ∧
      ((99 : Int) < exampleConfig.HEV_TASK_PRIORITY_MIN →
        hev_task_get_priority w' 4096 = Except.ok exampleConfig.HEV_TASK_PRIORITY_MIN) ∧
      ((99 : Int) > exampleConfig.HEV_TASK_PRIORITY_MAX →
        hev_task_get_priority w' 4096 = Except.ok exampleConfig.HEV_TASK_PRIORITY_MAX) ∧
      (exampleConfig.HEV_TASK_PRIORITY_MIN ≤ 99 → 99 ≤ exampleConfig.HEV_TASK_PRIORITY_MAX →
        hev_task_get_priority w' 4096 = Except.ok 99) :=
  set_priority_then_get_priority exampleConfig exampleWorld 4096 exampleTask 99
    (by decide) rfl

/-! ## Alignment -/

/-- On 64-bit addresses `ALIGN_DOWN (a, 16)` clears the four low bits. -/
theorem ALIGN_DOWN_16 (a : Nat) (h : a < UINTPTR_MOD) : ALIGN_DOWN a 16 = a - a % 16 := by
  have hmask : UINTPTR_MOD - 1 - ((16 % UINTPTR_MOD + UINTPTR_MOD - 1) % UINTPTR_MOD)
      = 2 ^ 64 - (15 + 1) := by
    norm_num [UINTPTR_MOD]
  have h16 : a - a % 16 = 2 ^ 4 * (a >>> 4) := by
    rw [Nat.shiftRight_eq_div_pow]
    omega
  have h15 : (15 : Nat) = 2 ^ 4 - 1 := by norm_num
  unfold ALIGN_DOWN
  rw [hmask, h16]
  apply Nat.eq_of_testBit_eq
  intro i
  rw [Nat.testBit_and, Nat.testBit_two_pow_sub_succ (by norm_num), Nat.testBit_mul_pow_two,
    Nat.testBit_shiftRight, h15, Nat.testBit_two_pow_sub_one]
  by_cases h4 : i < 4
  · have : ¬ i ≥ 4 := by omega
    simp [h4, this]
  · have h4' : i ≥ 4 := by omega
    have hi : 4 + (i - 4) = i := by omega
    by_cases h64 : i < 64
    · simp [h4, h4', h64, hi]
    · have hlt : a < 2 ^ i :=
        lt_of_lt_of_le h (by
          unfold UINTPTR_MOD
          exact Nat.pow_le_pow_right (by norm_num) (by omega))
      simp [h4, h4', h64, hi, Nat.testBit_lt_two_pow hlt]

/-- Rounding the end `n = s + sz` of a buffer down to a multiple of 16 stays
inside the buffer when the buffer has at least 15 bytes or starts aligned. -/
theorem align16_in_buffer (s n : Nat) (sz : Int) (hn : (s : Int) + sz = (n : Int))
    (hsize : 15 ≤ sz ∨ (0 ≤ sz ∧ s % 16 = 0)) :
    (n - n % 16) % 16 = 0 ∧ s ≤ n - n % 16 ∧ ((n - n % 16 : Nat) : Int) ≤ (s : Int) + sz := by
  omega

/-! ## Creation -/

/-- What `hev_task_new` does when both allocations succeed and the allocator
hands out two different blocks: the handle is the record's address, the record
is the zero record with `ref_count`, `next_priority`, `stack`, `stack_top`,
`stack_size` and `sched_entity.task` assigned, the stack block is stamped when
detection is on, no other address changes, and the allocator was called
twice. -/
theorem hev_task_new_ok (c : Config) (w : World) (stack_size : Int) (rec_reply stack_reply : Ptr)
    (hrec : rec_reply ≠ NULL) (hstk : stack_reply ≠ NULL) (hne : stack_reply ≠ rec_reply) :
    ∃ w', hev_task_new c w stack_size rec_reply stack_reply = Except.ok (rec_reply, w') ∧
      w'.heap rec_reply = some (Block.task
        { HevTask.zero with
          ref_count := 1
          next_priority := c.HEV_TASK_PRIORITY_DEFAULT
          stack := stack_reply
          stack_top := ALIGN_DOWN
            ((((stack_reply : Int) + (if stack_size = -1 then HEV_TASK_STACK_SIZE else stack_size))
              % (UINTPTR_MOD : Int)).toNat) 16
          stack_size := if stack_size = -1 then HEV_TASK_STACK_SIZE else stack_size
          sched_entity := { task := rec_reply } }) ∧
      w'.heap stack_reply = some (Block.raw
        (if c.ENABLE_STACK_OVERFLOW_DETECTION then some STACK_OVERFLOW_DETECTION_TAG else none)) ∧
      (∀ q, q ≠ rec_reply → q ≠ stack_reply → w'.heap q = w.heap q) ∧
      w'.ctx = w.ctx ∧
      w'.trace = w.trace ++ [Call.hev_malloc0 rec_reply,
        Call.hev_malloc (if stack_size = -1 then HEV_TASK_STACK_SIZE else stack_size)
          stack_reply] := by
  have hne' : rec_reply ≠ stack_reply := fun h => hne h.symm
  have hrec0 : ¬ rec_reply = 0 := hrec
  have hstk0 : ¬ stack_reply = 0 := hstk
  cases hd : c.ENABLE_STACK_OVERFLOW_DETECTION <;>
  · simp only [hev_task_new, hev_malloc0, hev_malloc, hrec, hstk, hrec0, hstk0, hne, hne', hd,
      bind, Except.bind, World.task, World.poke, store_heap, log_heap, if_true, if_false,
      reduceIte, NULL]
    refine ⟨_, rfl, ?_, ?_, ?_, ?_, ?_⟩
    · simp [HevTask.zero, NULL]
    · simp [hne]
    · intro q h1 h2
      simp [h1, h2]
    · simp
    · simp

/-- C2. When both allocations succeed (two non-null, distinct blocks), the
task returned by `hev_task_new` is in state STOPPED, its `get_priority` is
`HEV_TASK_PRIORITY_DEFAULT`, its `ref_count` is 1, its `sched_entity.task` is
the task itself, and `priority`, `sched_key`, `entry` and `data` are still
zero. -/
theorem hev_task_new_initial_state (c : Config) (w : World) (stack_size : Int)
    (rec_reply stack_reply : Ptr)
    (hrec : rec_reply ≠ NULL) (hstk : stack_reply ≠ NULL) (hne : stack_reply ≠ rec_reply) :
    ∃ w' t, hev_task_new c w stack_size rec_reply stack_reply = Except.ok (rec_reply, w') ∧
      w'.heap rec_reply = some (Block.task t) ∧
      hev_task_get_state w' rec_reply = Except.ok HevTaskState.HEV_TASK_STOPPED ∧
      hev_task_get_priority w' rec_reply = Except.ok c.HEV_TASK_PRIORITY_DEFAULT ∧
      t.ref_count = 1 ∧ t.sched_entity.task = rec_reply ∧
      t.priority = 0 ∧ t.sched_key = 0 ∧ t.entry = NULL ∧ t.data = NULL := by
  obtain ⟨w', hnew, hheap, -, -, -, -⟩ :=
    hev_task_new_ok c w stack_size rec_reply stack_reply hrec hstk hne
  refine ⟨w', _, hnew, hheap, ?_, ?_, rfl, rfl, rfl, rfl, rfl, rfl⟩
  · simp [hev_task_get_state, task_of_heap hheap, bind, Except.bind, HevTask.zero]
  · simp [hev_task_get_priority, task_of_heap hheap, bind, Except.bind]

/-- C2 instance: a task with the default stack, record at 4096, stack at
8192. -/
theorem hev_task_new_initial_state_witness :
    ∃ w' t, hev_task_new exampleConfig emptyWorld (-1) 4096 8192 = Except.ok (4096, w') ∧
      w'.heap 4096 = some (Block.task t) ∧
      hev_task_get_state w' 4096 = Except.ok HevTaskState.HEV_TASK_STOPPED ∧
      hev_task_get_priority w' 4096 = Except.ok exampleConfig.HEV_TASK_PRIORITY_DEFAULT ∧
      t.ref_count = 1 ∧ t.sched_entity.task = 4096 ∧
      t.priority = 0 ∧ t.sched_key = 0 ∧ t.entry = NULL ∧ t.data = NULL :=
  hev_task_new_initial_state exampleConfig emptyWorld (-1) 4096 8192
    (by decide) (by decide) (by decide)

/-- C3 fails as stated: with a 4-byte stack that the allocator places at the
8-aligned address 24, `stack_top` is 16, below `stack`. -/
theorem hev_task_new_stack_top_below_stack :
    ∃ w' t, hev_task_new exampleConfig emptyWorld 4 4096 24 = Except.ok (4096, w') ∧
      w'.heap 4096 = some (Block.task t) ∧
      t.stack = 24 ∧ t.stack_size = 4 ∧ t.stack_top = 16 ∧ ¬ t.stack ≤ t.stack_top := by
  obtain ⟨w', hnew, hheap, -, -, -, -⟩ :=
    hev_task_new_ok exampleConfig emptyWorld 4 4096 24 (by decide) (by decide) (by decide)
  refine ⟨w', _, hnew, hheap, rfl, rfl, ?_, ?_⟩
  · decide
  · decide

/-- C3 (amended). When the end of the buffer `stack + stack_size` does not
wrap the 64-bit address space and either the recorded `stack_size` is at least
15 or it is non-negative and the allocator returned a 16-aligned base, the
task returned by `hev_task_new` has a `stack_top` that is a multiple of 16 and
satisfies `stack ≤ stack_top ≤ stack + stack_size`. -/
theorem hev_task_new_stack_top_in_buffer (c : Config) (w : World) (stack_size : Int)
    (rec_reply stack_reply : Ptr)
    (hrec : rec_reply ≠ NULL) (hstk : stack_reply ≠ NULL) (hne : stack_reply ≠ rec_reply)
    (hfit : (stack_reply : Int) + (if stack_size = -1 then HEV_TASK_STACK_SIZE else stack_size)
      < (UINTPTR_MOD : Int))
    (hsize : 15 ≤ (if stack_size = -1 then HEV_TASK_STACK_SIZE else stack_size) ∨
      (0 ≤ (if stack_size = -1 then HEV_TASK_STACK_SIZE else stack_size) ∧
        stack_reply % 16 = 0)) :
    ∃ w' t, hev_task_new c w stack_size rec_reply stack_reply = Except.ok (rec_reply, w') ∧
      w'.heap rec_reply = some (Block.task t) ∧
      t.stack = stack_reply ∧
      t.stack_size = (if stack_size = -1 then HEV_TASK_STACK_SIZE else stack_size) ∧
      t.stack_top % 16 = 0 ∧
      t.stack ≤ t.stack_top ∧
      (t.stack_top : Int) ≤ (t.stack : Int) + t.stack_size := by
  obtain ⟨w', hnew, hheap, -, -, -, -⟩ :=
    hev_task_new_ok c w stack_size rec_reply stack_reply hrec hstk hne
  refine ⟨w', _, hnew, hheap, rfl, rfl, ?_⟩
  generalize hsz : (if stack_size = -1 then HEV_TASK_STACK_SIZE else stack_size) = sz at *
  have hmod : UINTPTR_MOD = 18446744073709551616 := by norm_num [UINTPTR_MOD]
  rw [hmod] at hfit
  have h0 : (0 : Int) ≤ (stack_reply : Int) + sz := by omega
  have hlt : (((stack_reply : Int) + sz) % (UINTPTR_MOD : Int)).toNat < UINTPTR_MOD := by
    rw [hmod]; omega
  have heq : (((stack_reply : Int) + sz) % (UINTPTR_MOD : Int)).toNat
      = ((stack_reply : Int) + sz).toNat := by
    rw [hmod]; omega
  show ALIGN_DOWN (((stack_reply : Int) + sz) % (UINTPTR_MOD : Int)).toNat 16 % 16 = 0 ∧
    stack_reply ≤ ALIGN_DOWN (((stack_reply : Int) + sz) % (UINTPTR_MOD : Int)).toNat 16 ∧
    ((ALIGN_DOWN (((stack_reply : Int) + sz) % (UINTPTR_MOD : Int)).toNat 16 : Nat) : Int)
      ≤ (stack_reply : Int) + sz
  rw [ALIGN_DOWN_16 _ hlt, heq]
  clear hlt heq hmod hsz hheap hnew
  obtain ⟨n, hn⟩ := Int.eq_ofNat_of_zero_le h0
  rw [hn, Int.toNat_ofNat, ← hn]
  exact align16_in_buffer stack_reply n sz hn hsize

/-- C3 (amended) instance: a 4096-byte stack at the 8-aligned address 8200. -/
theorem hev_task_new_stack_top_in_buffer_witness :
    ∃ w' t, hev_task_new exampleConfig emptyWorld 4096 4096 8200 = Except.ok (4096, w') ∧
      w'.heap 4096 = some (Block.task t) ∧
      t.stack = 8200 ∧
      t.stack_size = (if (4096 : Int) = -1 then HEV_TASK_STACK_SIZE else 4096) ∧
      t.stack_top % 16 = 0 ∧
      t.stack ≤ t.stack_top ∧
      (t.stack_top : Int) ≤ (t.stack : Int) + t.stack_size :=
  hev_task_new_stack_top_in_buffer exampleConfig emptyWorld 4096 4096 8200
    (by decide) (by decide) (by decide) (by decide) (Or.inl (by decide))

/-! ## Reference counting -/

/-- `hev_task_ref` on a live task: the count goes up by one modulo `2 ^ 32`,
nothing else changes, and the handle is returned. -/
theorem hev_task_ref_ok {w : World} {self : Ptr} {t : HevTask}
    (h : w.heap self = some (Block.task t)) :
    hev_task_ref w self = Except.ok
      (self, w.store self (Block.task { t with ref_count := (t.ref_count + 1) % UINT_MOD })) := by
  simp [hev_task_ref, task_of_heap h, bind, Except.bind]

/-- `hev_task_unref` on a live task whose count stays positive: the count goes
down by one and nothing else changes. -/
theorem hev_task_unref_keep {c : Config} {w : World} {self : Ptr} {t : HevTask}
    (h : w.heap self = some (Block.task t))
    (hrc : (t.ref_count + UINT_MOD - 1) % UINT_MOD ≠ 0) :
    hev_task_unref c w self = Except.ok
      (w.store self
        (Block.task { t with ref_count := (t.ref_count + UINT_MOD - 1) % UINT_MOD })) := by
  simp [hev_task_unref, task_of_heap h, bind, Except.bind, hrc]

/-- `hev_task_unref` on a live task whose count drops to zero, with a live
stack whose sentinel is intact when detection is on: the stack and then the
record are freed. -/
theorem hev_task_unref_destroy (c : Config) (w : World) (self : Ptr) (t : HevTask)
    (v : Option Nat)
    (h : w.heap self = some (Block.task t))
    (hrc : (t.ref_count + UINT_MOD - 1) % UINT_MOD = 0)
    (hstack : w.heap t.stack = some (Block.raw v))
    (hsent : c.ENABLE_STACK_OVERFLOW_DETECTION = true → v = some STACK_OVERFLOW_DETECTION_TAG) :
    ∃ w', hev_task_unref c w self = Except.ok w' ∧
      w'.heap self = none ∧ w'.heap t.stack = none ∧
      (∀ q, q ≠ self → q ≠ t.stack → w'.heap q = w.heap q) ∧
      w'.ctx = w.ctx ∧
      w'.trace = w.trace ++ [Call.hev_free t.stack, Call.hev_free self] := by
  have hne : t.stack ≠ self := by
    intro heq
    rw [heq, h] at hstack
    cases hstack
  have hne' : self ≠ t.stack := fun h => hne h.symm
  cases hd : c.ENABLE_STACK_OVERFLOW_DETECTION
  · simp only [hev_task_unref, task_of_heap h, bind, Except.bind, hrc, hd, task_store_same,
      hev_free, store_heap, hne, hne', hstack, if_false, if_true, reduceIte, ne_eq, not_true_eq_false,
      release_heap, log_heap, Bool.false_eq_true, Bool.true_eq_false]
    refine ⟨_, rfl, ?_, ?_, ?_, ?_, ?_⟩
    · simp
    · simp
    · intro q h1 h2; simp [h1, h2]
    · simp
    · simp
  · have hv := hsent hd
    subst hv
    simp only [hev_task_unref, task_of_heap h, bind, Except.bind, hrc, hd, task_store_same,
      hev_free, World.word0, store_heap, hne, hne', hstack, if_false, if_true, reduceIte, ne_eq,
      not_true_eq_false, release_heap, log_heap, decide_True, Bool.true_eq_false]
    refine ⟨_, rfl, ?_, ?_, ?_, ?_, ?_⟩
    · simp
    · simp
    · intro q h1 h2; simp [h1, h2]
    · simp
    · simp

/-- Running a concatenation runs the first part, then the second part on the
handle and state the first part left. -/
theorem run_ref_ops_append (c : Config) (a b : List RefOp) (w : World) (self : Ptr) :
    run_ref_ops c w self (a ++ b) =
      match run_ref_ops c w self a with
      | Except.ok r => run_ref_ops c r.2 r.1 b
      | Except.error e => Except.error e := by
  induction a generalizing w self with
  | nil => simp [run_ref_ops]
  | cons op a ih =>
    cases op with
    | ref =>
      simp only [List.cons_append, run_ref_ops]
      cases hev_task_ref w self with
      | ok r => simpa using ih r.2 r.1
      | error e => rfl
    | unref =>
      simp only [List.cons_append, run_ref_ops]
      cases hev_task_unref c w self with
      | ok w1 => simpa using ih w1 self
      | error e => rfl

/-- As long as every initial segment of the sequence has made fewer `unref`
calls than the count it started from plus the `ref` calls so far, and the count
never reaches `2 ^ 32`, the sequence only moves `ref_count`: the task stays
live, nothing is freed, the handle is unchanged. -/
theorem run_ref_ops_alive (c : Config) (self : Ptr) (ops : List RefOp) :
    ∀ (w : World) (t : HevTask), w.heap self = some (Block.task t) →
      (∀ pre suf, ops = pre ++ suf →
        pre.count RefOp.unref < t.ref_count + pre.count RefOp.ref) →
      t.ref_count + ops.count RefOp.ref < UINT_MOD →
      run_ref_ops c w self ops = Except.ok
        (self, w.store self (Block.task { t with
          ref_count := t.ref_count + ops.count RefOp.ref - ops.count RefOp.unref })) := by
  induction ops with
  | nil =>
    intro w t h _ _
    have : ({ t with ref_count :=
        t.ref_count + List.count RefOp.ref [] - List.count RefOp.unref [] } : HevTask) = t := by
      simp
    rw [this, store_same h]
    rfl
  | cons op ops ih =>
    intro w t h hpre hlt
    cases op with
    | ref =>
      have hcnt : (RefOp.ref :: ops).count RefOp.ref = ops.count RefOp.ref + 1 := by simp
      have hcnt' : (RefOp.ref :: ops).count RefOp.unref = ops.count RefOp.unref := by simp
      rw [hcnt] at hlt
      have hmod : (t.ref_count + 1) % UINT_MOD = t.ref_count + 1 :=
        Nat.mod_eq_of_lt (by omega)
      simp only [run_ref_ops, hev_task_ref_ok h, hmod]
      rw [ih (w.store self (Block.task { t with ref_count := t.ref_count + 1 }))
        { t with ref_count := t.ref_count + 1 } (by simp)]
      · rw [store_store, hcnt, hcnt']
        have : t.ref_count + 1 + ops.count RefOp.ref - ops.count RefOp.unref
            = t.ref_count + (ops.count RefOp.ref + 1) - ops.count RefOp.unref := by omega
        simp only [this]
      · intro pre suf hsplit
        have := hpre (RefOp.ref :: pre) suf (by simp [hsplit])
        simp at this
        show pre.count RefOp.unref < t.ref_count + 1 + pre.count RefOp.ref
        omega
      · show t.ref_count + 1 + ops.count RefOp.ref < UINT_MOD
        omega
    | unref =>
      have hcnt : (RefOp.unref :: ops).count RefOp.ref = ops.count RefOp.ref := by simp
      have hcnt' : (RefOp.unref :: ops).count RefOp.unref = ops.count RefOp.unref + 1 := by simp
      rw [hcnt] at hlt
      have h2 : 1 < t.ref_count := by
        have := hpre [RefOp.unref] ops rfl
        simpa using this
      have hM : UINT_MOD = 4294967296 := by norm_num [UINT_MOD]
      have hmod : (t.ref_count + UINT_MOD - 1) % UINT_MOD = t.ref_count - 1 := by
        rw [hM] at hlt ⊢
        omega
      have hnz : (t.ref_count + UINT_MOD - 1) % UINT_MOD ≠ 0 := by
        rw [hmod]; omega
      simp only [run_ref_ops, hev_task_unref_keep h hnz, hmod]
      rw [ih (w.store self (Block.task { t with ref_count := t.ref_count - 1 }))
        { t with ref_count := t.ref_count - 1 } (by simp)]
      · rw [store_store, hcnt, hcnt']
        have : t.ref_count - 1 + ops.count RefOp.ref - ops.count RefOp.unref
            = t.ref_count + ops.count RefOp.ref - (ops.count RefOp.unref + 1) := by omega
        simp only [this]
      · intro pre suf hsplit
        have := hpre (RefOp.unref :: pre) suf (by simp [hsplit])
        simp at this
        show pre.count RefOp.unref < t.ref_count - 1 + pre.count RefOp.ref
        omega
      · show t.ref_count - 1 + ops.count RefOp.ref < UINT_MOD
        omega

/-- C4 (amended). Start from a live task with `ref_count = 1`, a live stack and
(when detection is on) an intact sentinel.  Take any sequence of `N` ref calls
and `N + 1` unref calls, `N + 1 < 2 ^ 32`, in which every proper initial
segment contains no more unrefs than refs.  Then after every proper initial
segment the task and its stack are still live and nothing has been freed; the
sequence ends with an unref; after the whole sequence the stack and the record
have been freed, once each, by that last call; and `hev_task_ref` returns the
handle it was given. -/
theorem ref_unref_destroys_at_last_unref (c : Config) (w : World) (self : Ptr) (t : HevTask)
    (v : Option Nat) (ops : List RefOp) (N : Nat)
    (hlive : w.heap self = some (Block.task t)) (hone : t.ref_count = 1)
    (hstack : w.heap t.stack = some (Block.raw v))
    (hsent : c.ENABLE_STACK_OVERFLOW_DETECTION = true → v = some STACK_OVERFLOW_DETECTION_TAG)
    (hrefs : ops.count RefOp.ref = N) (hunrefs : ops.count RefOp.unref = N + 1)
    (hproper : ∀ pre suf, ops = pre ++ suf → suf ≠ [] →
      pre.count RefOp.unref ≤ pre.count RefOp.ref)
    (hN : N + 1 < UINT_MOD) :
    (∀ pre suf, ops = pre ++ suf → suf ≠ [] →
      ∃ w1, run_ref_ops c w self pre = Except.ok (self, w1) ∧
        w1.heap self = some (Block.task { t with
          ref_count := 1 + pre.count RefOp.ref - pre.count RefOp.unref }) ∧
        w1.heap t.stack = some (Block.raw v) ∧
        w1.trace = w.trace) ∧
    (∃ init, ops = init ++ [RefOp.unref]) ∧
    (∃ w', run_ref_ops c w self ops = Except.ok (self, w') ∧
      w'.heap self = none ∧ w'.heap t.stack = none ∧
      (∀ q, q ≠ self → q ≠ t.stack → w'.heap q = w.heap q) ∧
      w'.trace = w.trace ++ [Call.hev_free t.stack, Call.hev_free self]) ∧
    (∀ (w1 : World) (h : Ptr) (r : Ptr × World), hev_task_ref w1 h = Except.ok r → r.1 = h) := by
  have hne : t.stack ≠ self := by
    intro heq
    rw [heq, hlive] at hstack
    cases hstack
  -- the state after a proper initial segment
  have halive : ∀ pre suf, ops = pre ++ suf → suf ≠ [] →
      run_ref_ops c w self pre = Except.ok
        (self, w.store self (Block.task { t with
          ref_count := 1 + pre.count RefOp.ref - pre.count RefOp.unref })) := by
    intro pre suf hsplit hsuf
    have hcnt : pre.count RefOp.ref ≤ N := by
      rw [← hrefs, hsplit, List.count_append]; omega
    have := run_ref_ops_alive c self pre w t hlive (by
      intro p s hp
      have := hproper p (s ++ suf) (by rw [hsplit, hp, List.append_assoc]) (by simp [hsuf])
      omega) (by omega)
    rw [this, hone]
  -- the last call is an unref
  have hlast : ∃ init, ops = init ++ [RefOp.unref] := by
    rcases List.eq_nil_or_concat ops with hnil | ⟨init, x, hx⟩
    · rw [hnil] at hunrefs; simp at hunrefs
    · rw [List.concat_eq_append] at hx
      cases x with
      | unref => exact ⟨init, hx⟩
      | ref =>
        exfalso
        have h1 := hproper init [RefOp.ref] hx (by simp)
        rw [hx, List.count_append] at hrefs hunrefs
        simp at hrefs hunrefs
        omega
  refine ⟨?_, hlast, ?_, ?_⟩
  · intro pre suf hsplit hsuf
    refine ⟨_, halive pre suf hsplit hsuf, by simp, by simp [hne, hstack], by simp⟩
  · obtain ⟨init, hinit⟩ := hlast
    have hr : init.count RefOp.ref = N := by
      rw [hinit, List.count_append] at hrefs; simpa using hrefs
    have hu : init.count RefOp.unref = N := by
      rw [hinit, List.count_append] at hunrefs; simpa using hunrefs
    have h1 := halive init [RefOp.unref] hinit (by simp)
    rw [hr, hu] at h1
    have hrc : 1 + N - N = 1 := by omega
    rw [hrc] at h1
    obtain ⟨w', hun, hs, hst, hframe, -, htrace⟩ :=
      hev_task_unref_destroy c
        (w.store self (Block.task { t with ref_count := 1 })) self
        { t with ref_count := 1 } v (by simp)
        (by norm_num [UINT_MOD]) (by simp [hne, hstack]) hsent
    refine ⟨w', ?_, hs, hst, ?_, ?_⟩
    · rw [hinit, run_ref_ops_append, h1]
      simp only [run_ref_ops, hun]
    · intro q h1 h2
      rw [hframe q h1 h2]
      simp [h1]
    · simpa using htrace
  · intro w1 h r hr
    unfold hev_task_ref at hr
    cases hw : w1.task h with
    | error e => simp [hw, bind, Except.bind] at hr
    | ok t1 =>
      simp [hw, bind, Except.bind] at hr
      rw [← hr]

/-- C4 (amended) instance: `ref, unref, unref` on the example task frees the
stack and the record at the last call. -/
theorem ref_unref_destroys_at_last_unref_witness :
    ∃ w', run_ref_ops exampleConfig exampleWorld 4096 [RefOp.ref, RefOp.unref, RefOp.unref]
        = Except.ok (4096, w') ∧
      w'.heap 4096 = none ∧ w'.heap exampleTask.stack = none ∧
      (∀ q, q ≠ 4096 → q ≠ exampleTask.stack → w'.heap q = exampleWorld.heap q) ∧
      w'.trace = exampleWorld.trace ++ [Call.hev_free exampleTask.stack, Call.hev_free 4096] :=
  (ref_unref_destroys_at_last_unref exampleConfig exampleWorld 4096 exampleTask
    (some STACK_OVERFLOW_DETECTION_TAG) [RefOp.ref, RefOp.unref, RefOp.unref] 1
    rfl rfl rfl (fun _ => rfl) (by decide) (by decide)
    (by
      intro pre suf h hs
      rcases pre with _ | ⟨a, _ | ⟨b, _ | ⟨d, pre⟩⟩⟩
      · simp
      · simp at h; rw [← h.1]; decide
      · simp at h; rw [← h.1, ← h.2.1]; decide
      · simp at h
        exact absurd h.2.2.2.2 hs)
    (by decide)).2.2.1

/-- C4 fails as stated: the sequence `unref, ref, unref` has one ref and two
unrefs, and no initial segment of it has more unrefs than refs plus one, yet its
first unref, not its last, already frees the stack and the record; the calls
that follow act on a freed record. -/
theorem ref_unref_first_unref_destroys :
    (List.count RefOp.ref [RefOp.unref, RefOp.ref, RefOp.unref] = 1 ∧
      List.count RefOp.unref [RefOp.unref, RefOp.ref, RefOp.unref] = 1 + 1 ∧
      ∀ pre ∈ List.inits [RefOp.unref, RefOp.ref, RefOp.unref],
        List.count RefOp.unref pre ≤ List.count RefOp.ref pre + 1) ∧
    (∃ w1, run_ref_ops exampleConfig exampleWorld 4096 [RefOp.unref] = Except.ok (4096, w1) ∧
      w1.heap 4096 = none ∧ w1.heap 8192 = none ∧
      w1.trace = [Call.hev_free 8192, Call.hev_free 4096]) ∧
    run_ref_ops exampleConfig exampleWorld 4096 [RefOp.unref, RefOp.ref, RefOp.unref]
      = Except.error Fault.undefined := by
  refine ⟨by decide, ⟨_, rfl, rfl, rfl, rfl⟩, rfl⟩

/-- A run of `n` ref calls adds `n` to the count modulo `2 ^ 32`. -/
theorem run_ref_ops_replicate_ref (c : Config) (self : Ptr) (n : Nat) :
    ∀ (w : World) (t : HevTask), w.heap self = some (Block.task t) →
      t.ref_count < UINT_MOD →
      run_ref_ops c w self (List.replicate n RefOp.ref) = Except.ok
        (self, w.store self (Block.task { t with
          ref_count := (t.ref_count + n) % UINT_MOD })) := by
  induction n with
  | zero =>
    intro w t h hlt
    have : ({ t with ref_count := (t.ref_count + 0) % UINT_MOD } : HevTask) = t := by
      simp [Nat.mod_eq_of_lt hlt]
    rw [this, store_same h]
    rfl
  | succ n ih =>
    intro w t h hlt
    have hpos : 0 < UINT_MOD := by norm_num [UINT_MOD]
    simp only [List.replicate_succ, run_ref_ops, hev_task_ref_ok h]
    rw [ih (w.store self (Block.task { t with ref_count := (t.ref_count + 1) % UINT_MOD }))
      { t with ref_count := (t.ref_count + 1) % UINT_MOD } (by simp)
      (Nat.mod_lt _ hpos)]
    rw [store_store]
    have : ((t.ref_count + 1) % UINT_MOD + n) % UINT_MOD
        = (t.ref_count + (n + 1)) % UINT_MOD := by
      rw [Nat.add_mod, Nat.mod_mod, ← Nat.add_mod]
      congr 1
      omega
    simp only [this]

/-- Why the reference-count theorem bounds `N` below `2 ^ 32`: after `2 ^ 32` ref calls the 32-bit count of
the example task is back at 1, and the very next unref frees the task although
`2 ^ 32` references are outstanding. -/
theorem ref_count_wraps_after_two_pow_32_refs :
    ∃ w', run_ref_ops exampleConfig exampleWorld 4096
        (List.replicate (2 ^ 32) RefOp.ref ++ [RefOp.unref]) = Except.ok (4096, w') ∧
      w'.heap 4096 = none ∧ w'.heap 8192 = none := by
  have h1 := run_ref_ops_replicate_ref exampleConfig 4096 (2 ^ 32) exampleWorld exampleTask rfl
    (by norm_num [UINT_MOD, exampleTask])
  have hrc : (exampleTask.ref_count + 2 ^ 32) % UINT_MOD = 1 := by
    norm_num [UINT_MOD, exampleTask]
  rw [hrc] at h1
  obtain ⟨w', hun, hs, hst, -, -, -⟩ :=
    hev_task_unref_destroy exampleConfig
      (exampleWorld.store 4096 (Block.task { exampleTask with ref_count := 1 }))
      4096 { exampleTask with ref_count := 1 }
      (some STACK_OVERFLOW_DETECTION_TAG) (by simp)
      (by norm_num [UINT_MOD]) (by simp [exampleTask, exampleWorld]) (fun _ => rfl)
  refine ⟨w', ?_, hs, hst⟩
  rw [run_ref_ops_append, h1]
  simp only [run_ref_ops, hun]

/-! ## Sleeping -/

/-- C5. `hev_task_sleep (0)` and `hev_task_usleep (0)` return 0 and leave the
whole state as it was: nothing is appended to the trace, so the timer service
is not called, and the heap and the system context are untouched. -/
theorem sleep_zero_returns_immediately (env : Env) (w : World) :
    hev_task_usleep env w 0 = (0, w) ∧ hev_task_sleep env w 0 = (0, w) ∧
    (hev_task_usleep env w 0).2.trace = w.trace ∧ (hev_task_sleep env w 0).2.trace = w.trace := by
  have h1 : hev_task_usleep env w 0 = (0, w) := by simp [hev_task_usleep]
  have h2 : hev_task_sleep env w 0 = (0, w) := by simp [hev_task_sleep, h1]
  refine ⟨h1, h2, ?_, ?_⟩
  · rw [h1]
  · rw [h2]

/-- A non-zero `hev_task_usleep` makes one timer wait of that many
microseconds for the current task and returns the timer's residual. -/
theorem hev_task_usleep_nonzero (env : Env) (w : World) (us : Nat) (hus : us ≠ 0) :
    (hev_task_usleep env w us).1
      = (env.hev_task_timer_wait w w.ctx.timer us w.ctx.current_task).1 ∧
    (hev_task_usleep env w us).2.trace
      = w.trace ++ [Call.hev_task_timer_wait w.ctx.timer us w.ctx.current_task] := by
  simp [hev_task_usleep, hev_task_timer_wait, hus]

/-- While `milliseconds * 1000` fits in 32 bits, a non-zero `hev_task_sleep`
makes one timer wait of `milliseconds * 1000` microseconds for the current task
and returns the timer's residual divided by 1000. -/
theorem hev_task_sleep_in_range (env : Env) (w : World) (ms : Nat) (hms : ms ≠ 0)
    (hfit : ms * 1000 < UINT_MOD) :
    (hev_task_sleep env w ms).1
      = (env.hev_task_timer_wait w w.ctx.timer (ms * 1000) w.ctx.current_task).1 / 1000 ∧
    (hev_task_sleep env w ms).2.trace
      = w.trace ++ [Call.hev_task_timer_wait w.ctx.timer (ms * 1000) w.ctx.current_task] := by
  have hne : ms * 1000 ≠ 0 := by omega
  have h := hev_task_usleep_nonzero env w (ms * 1000) hne
  simp only [hev_task_sleep, Nat.mod_eq_of_lt hfit]
  exact ⟨by rw [h.1], h.2⟩

/-- C6 at the failing input: `hev_task_sleep (536870912)`, a non-zero number of
milliseconds, computes `536870912 * 1000 mod 2 ^ 32 = 0` microseconds, so it
returns 0 at once and makes no timer wait at all. -/
theorem hev_task_sleep_overflow_skips_timer (env : Env) (w : World) :
    (536870912 : Nat) ≠ 0 ∧ 536870912 < UINT_MOD ∧
    hev_task_sleep env w 536870912 = (0, w) ∧
    (hev_task_sleep env w 536870912).2.trace = w.trace := by
  have h : hev_task_sleep env w 536870912 = (0, w) := by
    have h0 : (536870912 * 1000) % UINT_MOD = 0 := by norm_num [UINT_MOD]
    simp [hev_task_sleep, hev_task_usleep, h0]
  refine ⟨by decide, by norm_num [UINT_MOD], h, by rw [h]⟩

/-- A two-hour `hev_task_sleep (7200000)` asks the timer for
`7200000 * 1000 mod 2 ^ 32 = 2905032704` microseconds, about 48 minutes. -/
theorem hev_task_sleep_two_hours_truncated (env : Env) (w : World) :
    (hev_task_sleep env w 7200000).2.trace
      = w.trace ++ [Call.hev_task_timer_wait w.ctx.timer 2905032704 w.ctx.current_task] := by
  have h0 : (7200000 * 1000) % UINT_MOD = 2905032704 := by norm_num [UINT_MOD]
  have h := (hev_task_usleep_nonzero env w 2905032704 (by decide)).2
  simp only [hev_task_sleep, h0]
  exact h

/-- C7. When the timer service never reports a residual larger than the wait it
was asked for, `hev_task_sleep (ms)` returns at most `ms` and
`hev_task_usleep (us)` returns at most `us`. -/
theorem sleep_returns_at_most_request (env : Env) (w : World) (ms us : Nat)
    (htimer : TimerResidualBounded env) :
    (hev_task_sleep env w ms).1 ≤ ms ∧ (hev_task_usleep env w us).1 ≤ us := by
  have husleep : ∀ n, (hev_task_usleep env w n).1 ≤ n := by
    intro n
    by_cases hn : n = 0
    · simp [hev_task_usleep, hn]
    · simp only [hev_task_usleep, hn, if_false, hev_task_timer_wait]
      exact htimer _ _ _ _
  refine ⟨?_, husleep us⟩
  have h1 := husleep ((ms * 1000) % UINT_MOD)
  have h2 : (ms * 1000) % UINT_MOD ≤ ms * 1000 := Nat.mod_le _ _
  show (hev_task_usleep env w ((ms * 1000) % UINT_MOD)).1 / 1000 ≤ ms
  omega

/-- The example timer reports half of the requested wait. -/
theorem exampleEnv_timer_bounded : TimerResidualBounded exampleEnv := by
  intro w timer us task
  show us / 2 ≤ us
  omega

/-- C7 instance: a 5000 ms sleep and a 7 µs sleep cut short by the example
timer. -/
theorem sleep_returns_at_most_request_witness :
    (hev_task_sleep exampleEnv exampleWorld 5000).1 ≤ 5000 ∧
    (hev_task_usleep exampleEnv exampleWorld 7).1 ≤ 7 :=
  sleep_returns_at_most_request exampleEnv exampleWorld 5000 7 exampleEnv_timer_bounded

/-! ## Running -/

/-- `hev_task_run` on a live task that is not STOPPED changes nothing. -/
theorem hev_task_run_not_stopped {env : Env} {w : World} {self : Ptr} {t : HevTask}
    (hlive : w.heap self = some (Block.task t))
    (hstate : t.state ≠ HevTaskState.HEV_TASK_STOPPED) (entry data : Ptr) :
    hev_task_run env w self entry data = Except.ok w := by
  simp [hev_task_run, task_of_heap hlive, bind, Except.bind, hstate]

/-- `hev_task_run` on a live STOPPED task stores the entry, the datum and the
pending priority (as priority and scheduling key) and then calls the
scheduler's `run_new_task` on the task. -/
theorem hev_task_run_stopped {env : Env} {w : World} {self : Ptr} {t : HevTask}
    (hlive : w.heap self = some (Block.task t))
    (hstate : t.state = HevTaskState.HEV_TASK_STOPPED) (entry data : Ptr) :
    hev_task_run env w self entry data = Except.ok
      (hev_task_system_run_new_task env
        (w.store self (Block.task { t with
          entry := entry, data := data,
          priority := t.next_priority, sched_key := t.next_priority })) self) := by
  simp [hev_task_run, task_of_heap hlive, bind, Except.bind, hstate]

/-- The call wrapper only replaces the trace: the heap after the call is the
heap the scheduler produced. -/
theorem hev_task_system_run_new_task_heap (env : Env) (w : World) (task : Ptr) :
    (hev_task_system_run_new_task env w task).heap
      = (env.hev_task_system_run_new_task w task).heap := rfl

/-- The call wrapper appends exactly one call to the trace. -/
theorem hev_task_system_run_new_task_trace (env : Env) (w : World) (task : Ptr) :
    (hev_task_system_run_new_task env w task).trace
      = w.trace ++ [Call.hev_task_system_run_new_task task] := rfl

/-- The example scheduler marks the task WAITING. -/
theorem exampleEnv_leaves_non_stopped : RunNewTaskLeavesNonStopped exampleEnv := by
  intro w task t h
  refine ⟨{ t with state := HevTaskState.HEV_TASK_WAITING }, ?_, by simp⟩
  show (example_run_new_task w task).heap task = _
  simp [example_run_new_task, h]

/-- The example scheduler only changes the task's state. -/
theorem exampleEnv_keeps_closure : RunNewTaskKeepsClosure exampleEnv := by
  intro w task t h
  refine ⟨{ t with state := HevTaskState.HEV_TASK_WAITING }, ?_, rfl, rfl, rfl, rfl, rfl⟩
  show (example_run_new_task w task).heap task = _
  simp [example_run_new_task, h]

/-- `hev_task_run` on a live STOPPED task under a scheduler that does not
overwrite the closure and the priorities: the record afterwards. -/
theorem hev_task_run_stopped_post {env : Env} {w : World} {self : Ptr} {t : HevTask}
    (hlive : w.heap self = some (Block.task t))
    (hstate : t.state = HevTaskState.HEV_TASK_STOPPED) (entry data : Ptr)
    (hkeep : RunNewTaskKeepsClosure env) :
    ∃ w' t', hev_task_run env w self entry data = Except.ok w' ∧
      w'.heap self = some (Block.task t') ∧
      t'.entry = entry ∧ t'.data = data ∧ t'.priority = t.next_priority ∧
      t'.sched_key = t.next_priority ∧ t'.next_priority = t.next_priority := by
  obtain ⟨t', ht', he, hd, hp, hk, hn⟩ := hkeep _ self _
    (store_heap_self w self (Block.task { t with
      entry := entry, data := data,
      priority := t.next_priority, sched_key := t.next_priority }))
  exact ⟨_, t', hev_task_run_stopped hlive hstate entry data,
    by rw [hev_task_system_run_new_task_heap]; exact ht', he, hd, hp, hk, hn⟩

/-- C8. On a live task whose state is not STOPPED, `hev_task_run` returns the
state it was given: no field of the record changes and the trace gets no call,
so `run_new_task` is not invoked.  Consequently, when the scheduler's
`run_new_task` leaves the task live and not STOPPED, a second `hev_task_run`
right after a first one leaves the state exactly as the first left it. -/
theorem run_on_non_stopped_is_noop (env : Env) (w : World) (self : Ptr) (t : HevTask)
    (hlive : w.heap self = some (Block.task t)) :
    (t.state ≠ HevTaskState.HEV_TASK_STOPPED →
      ∀ entry data : Ptr, hev_task_run env w self entry data = Except.ok w) ∧
    (RunNewTaskLeavesNonStopped env →
      ∀ entry1 data1 entry2 data2 : Ptr,
        ∃ w1, hev_task_run env w self entry1 data1 = Except.ok w1 ∧
          hev_task_run env w1 self entry2 data2 = Except.ok w1) := by
  refine ⟨fun hstate entry data => hev_task_run_not_stopped hlive hstate entry data, ?_⟩
  intro hsched entry1 data1 entry2 data2
  by_cases hstate : t.state = HevTaskState.HEV_TASK_STOPPED
  · refine ⟨_, hev_task_run_stopped hlive hstate entry1 data1, ?_⟩
    obtain ⟨t', ht', hst'⟩ := hsched _ self _
      (store_heap_self w self (Block.task { t with
        entry := entry1, data := data1,
        priority := t.next_priority, sched_key := t.next_priority }))
    exact hev_task_run_not_stopped
      (by rw [hev_task_system_run_new_task_heap]; exact ht') hst' entry2 data2
  · exact ⟨w, hev_task_run_not_stopped hlive hstate entry1 data1,
      hev_task_run_not_stopped hlive hstate entry2 data2⟩

/-- C8 instance: the example task, run twice with the example scheduler. -/
theorem run_on_non_stopped_is_noop_witness :
    ∃ w1, hev_task_run exampleEnv exampleWorld 4096 7 9 = Except.ok w1 ∧
      hev_task_run exampleEnv w1 4096 11 13 = Except.ok w1 :=
  (run_on_non_stopped_is_noop exampleEnv exampleWorld 4096 exampleTask rfl).2
    exampleEnv_leaves_non_stopped 7 9 11 13

/-- C9. On a live STOPPED task with pending priority `n = next_priority`,
`hev_task_run (task, entry, datum)` stores `entry`, `datum`, `priority = n` and
`sched_key = n`, keeps `next_priority = n`, and then invokes the scheduler's
`run_new_task` exactly once, with that task: the trace grows by that one call.
When `run_new_task` does not overwrite these fields, the task has them after
`hev_task_run` returns and `hev_task_get_data` returns `datum`. -/
theorem run_on_stopped_starts_task (env : Env) (w : World) (self : Ptr) (t : HevTask)
    (entry data : Ptr)
    (hlive : w.heap self = some (Block.task t))
    (hstate : t.state = HevTaskState.HEV_TASK_STOPPED) :
    ∃ w0 w', hev_task_run env w self entry data = Except.ok w' ∧
      w0.heap self = some (Block.task { t with
        entry := entry, data := data,
        priority := t.next_priority, sched_key := t.next_priority }) ∧
      (∀ q, q ≠ self → w0.heap q = w.heap q) ∧ w0.ctx = w.ctx ∧ w0.trace = w.trace ∧
      w' = hev_task_system_run_new_task env w0 self ∧
      w'.trace = w.trace ++ [Call.hev_task_system_run_new_task self] ∧
      (RunNewTaskKeepsClosure env →
        ∃ t', w'.heap self = some (Block.task t') ∧
          t'.entry = entry ∧ t'.priority = t.next_priority ∧
          t'.sched_key = t.next_priority ∧ t'.next_priority = t.next_priority ∧
          hev_task_get_data w' self = Except.ok data) := by
  refine ⟨w.store self (Block.task { t with
      entry := entry, data := data,
      priority := t.next_priority, sched_key := t.next_priority }), _,
    hev_task_run_stopped hlive hstate entry data, store_heap_self _ _ _, ?_, rfl, rfl, rfl, rfl, ?_⟩
  · intro q hq
    simp [hq]
  · intro hkeep
    obtain ⟨w', t', hrun, hheap, he, hd, hp, hk, hn⟩ :=
      hev_task_run_stopped_post hlive hstate entry data hkeep
    rw [hev_task_run_stopped hlive hstate entry data] at hrun
    cases hrun
    refine ⟨t', hheap, he, hp, hk, hn, ?_⟩
    simp [hev_task_get_data, task_of_heap hheap, bind, Except.bind, hd]

/-- C9 instance: the example task run with entry 7 and datum 9 under the
example scheduler. -/
theorem run_on_stopped_starts_task_witness :
    ∃ w' t', hev_task_run exampleEnv exampleWorld 4096 7 9 = Except.ok w' ∧
      w'.trace = exampleWorld.trace ++ [Call.hev_task_system_run_new_task 4096] ∧
      w'.heap 4096 = some (Block.task t') ∧
      t'.entry = 7 ∧ t'.priority = exampleTask.next_priority ∧
      t'.sched_key = exampleTask.next_priority ∧
      t'.next_priority = exampleTask.next_priority ∧
      hev_task_get_data w' 4096 = Except.ok 9 := by
  obtain ⟨w0, w', hrun, -, -, -, -, -, htrace, hpost⟩ :=
    run_on_stopped_starts_task exampleEnv exampleWorld 4096 exampleTask 7 9 rfl rfl
  obtain ⟨t', h⟩ := hpost exampleEnv_keeps_closure
  exact ⟨w', t', hrun, htrace, h⟩

/-- C10. `hev_task_set_priority` on a live task writes the clamped value to
`next_priority` and nothing else: the record's priority, scheduling key, state,
reference count, entry, datum and stack fields, every other heap block, the
system context and the trace are unchanged.  When the task is STOPPED and the
scheduler's `run_new_task` does not overwrite the priorities, the next
`hev_task_run` makes the clamped value the priority and the scheduling key. -/
theorem set_priority_changes_only_pending (c : Config) (env : Env) (w : World) (self : Ptr)
    (t : HevTask) (p : Int) (hlive : w.heap self = some (Block.task t)) :
    ∃ w1 t1, hev_task_set_priority c w self p = Except.ok w1 ∧
      w1.heap self = some (Block.task t1) ∧
      t1.next_priority =
        (if p < c.HEV_TASK_PRIORITY_MIN then c.HEV_TASK_PRIORITY_MIN
         else if p > c.HEV_TASK_PRIORITY_MAX then c.HEV_TASK_PRIORITY_MAX else p) ∧
      t1.priority = t.priority ∧ t1.sched_key = t.sched_key ∧ t1.state = t.state ∧
      t1.ref_count = t.ref_count ∧ t1.entry = t.entry ∧ t1.data = t.data ∧
      t1.stack = t.stack ∧ t1.stack_top = t.stack_top ∧ t1.stack_size = t.stack_size ∧
      t1.sched_entity = t.sched_entity ∧
      (∀ q, q ≠ self → w1.heap q = w.heap q) ∧ w1.ctx = w.ctx ∧ w1.trace = w.trace ∧
      (t.state = HevTaskState.HEV_TASK_STOPPED → RunNewTaskKeepsClosure env →
        ∀ entry data : Ptr,
          ∃ w2 t2, hev_task_run env w1 self entry data = Except.ok w2 ∧
            w2.heap self = some (Block.task t2) ∧
            t2.priority =
              (if p < c.HEV_TASK_PRIORITY_MIN then c.HEV_TASK_PRIORITY_MIN
               else if p > c.HEV_TASK_PRIORITY_MAX then c.HEV_TASK_PRIORITY_MAX else p) ∧
            t2.sched_key =
              (if p < c.HEV_TASK_PRIORITY_MIN then c.HEV_TASK_PRIORITY_MIN
               else if p > c.HEV_TASK_PRIORITY_MAX then c.HEV_TASK_PRIORITY_MAX else p)) := by
  have hset : hev_task_set_priority c w self p = Except.ok
      (w.store self (Block.task { t with next_priority :=
        (if p < c.HEV_TASK_PRIORITY_MIN then c.HEV_TASK_PRIORITY_MIN
         else if p > c.HEV_TASK_PRIORITY_MAX then c.HEV_TASK_PRIORITY_MAX else p) })) := by
    simp [hev_task_set_priority, task_of_heap hlive, bind, Except.bind]
  refine ⟨_, _, hset, store_heap_self _ _ _, rfl, rfl, rfl, rfl, rfl, rfl, rfl, rfl, rfl, rfl,
    rfl, ?_, rfl, rfl, ?_⟩
  · intro q hq
    simp [hq]
  · intro hstate hkeep entry data
    obtain ⟨w2, t2, hrun, hheap, -, -, hp, hk, -⟩ :=
      hev_task_run_stopped_post (store_heap_self w self (Block.task { t with next_priority :=
        (if p < c.HEV_TASK_PRIORITY_MIN then c.HEV_TASK_PRIORITY_MIN
         else if p > c.HEV_TASK_PRIORITY_MAX then c.HEV_TASK_PRIORITY_MAX else p) }))
        hstate entry data hkeep
    exact ⟨w2, t2, hrun, hheap, hp, hk⟩

/-- C10 instance: priority 99 on the example task, then a run under the
example scheduler. -/
theorem set_priority_changes_only_pending_witness :
    ∃ w1 w2 t2, hev_task_set_priority exampleConfig exampleWorld 4096 99 = Except.ok w1 ∧
      hev_task_run exampleEnv w1 4096 7 9 = Except.ok w2 ∧
      w2.heap 4096 = some (Block.task t2) ∧ t2.priority = 15 ∧ t2.sched_key = 15 := by
  obtain ⟨w1, t1, hset, -, -, -, -, -, -, -, -, -, -, -, -, -, -, -, hrun⟩ :=
    set_priority_changes_only_pending exampleConfig exampleEnv exampleWorld 4096 exampleTask 99
      rfl
  obtain ⟨w2, t2, h2, hheap, hp, hk⟩ := hrun rfl exampleEnv_keeps_closure 7 9
  exact ⟨w1, w2, t2, hset, h2, hheap, hp, hk⟩

/-! ## Event translation -/

/-- The translation is the union of the reactor bits selected by the three
poll tests. -/
theorem hev_task_fd_events_to_reactor_eq (c : Config) (events : Nat) :
    hev_task_fd_events_to_reactor c events =
      ((if events &&& c.POLLIN ≠ 0 then c.HEV_TASK_IO_REACTOR_EV_RO else 0) |||
        (if events &&& c.POLLOUT ≠ 0 then c.HEV_TASK_IO_REACTOR_EV_WO else 0)) |||
        (if events &&& c.POLLERR ≠ 0 then c.HEV_TASK_IO_REACTOR_EV_ER else 0) := by
  unfold hev_task_fd_events_to_reactor
  split_ifs <;> simp

/-- A union of two words is zero exactly when both are. -/
theorem lor_eq_zero (x y : Nat) : x ||| y = 0 ↔ x = 0 ∧ y = 0 := by
  constructor
  · intro h
    have hbit : ∀ i, (x.testBit i || y.testBit i) = false := by
      intro i
      have := congrArg (fun n => Nat.testBit n i) h
      simpa using this
    constructor
    · apply Nat.eq_of_testBit_eq
      intro i
      have := hbit i
      simp only [Bool.or_eq_false_iff] at this
      simp [this.1]
    · apply Nat.eq_of_testBit_eq
      intro i
      have := hbit i
      simp only [Bool.or_eq_false_iff] at this
      simp [this.2]
  · rintro ⟨rfl, rfl⟩
    simp

/-- A poll bit is present in a union exactly when it is present in one of the
two sides. -/
theorem lor_land_ne_zero (a b m : Nat) :
    (a ||| b) &&& m ≠ 0 ↔ a &&& m ≠ 0 ∨ b &&& m ≠ 0 := by
  rw [Nat.and_distrib_right, Ne, lor_eq_zero]
  tauto

/-- Two disjoint words have no common bit. -/
theorem disjoint_bits {x y : Nat} (h : x &&& y = 0) (i : Nat) :
    ¬ (x.testBit i = true ∧ y.testBit i = true) := by
  intro hb
  have := congrArg (fun n => Nat.testBit n i) h
  simp [hb.1, hb.2] at this

/-- A union of reactor words contains a non-zero word `r` that is disjoint
from the other parts exactly when `r` itself was selected. -/
theorem selected_iff (r x y : Nat) (p : Prop) [Decidable p] (hr : r ≠ 0)
    (hx : r &&& x = 0) (hy : r &&& y = 0) :
    (((if p then r else 0) ||| x) ||| y) &&& r = r ↔ p := by
  by_cases hp : p
  · simp only [hp, if_true, iff_true]
    apply Nat.eq_of_testBit_eq
    intro i
    simp only [Nat.testBit_and, Nat.testBit_or]
    cases r.testBit i <;> simp
  · simp only [hp, if_false, iff_false, Nat.zero_or]
    intro h
    apply hr
    apply Nat.eq_of_testBit_eq
    intro i
    have hb := congrArg (fun n => Nat.testBit n i) h
    simp only [Nat.testBit_and, Nat.testBit_or] at hb
    have h1 := disjoint_bits hx i
    have h2 := disjoint_bits hy i
    cases hri : r.testBit i
    · simp
    · exfalso
      rw [hri] at hb h1 h2
      cases hxi : x.testBit i <;> cases hyi : y.testBit i <;> simp_all

/-- A word disjoint from `s` is disjoint from a selection of `s`. -/
theorem land_ite_zero (r s : Nat) (p : Prop) [Decidable p] (h : r &&& s = 0) :
    r &&& (if p then s else 0) = 0 := by
  split_ifs <;> simp [h]

/-- C11. With three non-zero, pairwise disjoint reactor words RO, WO and ER,
the translation of a poll bitset has RO set iff the bitset has POLLIN, WO set
iff it has POLLOUT, ER set iff it has POLLERR, and no bit outside
`RO | WO | ER`; bits outside `POLLIN | POLLOUT | POLLERR` do not influence the
result; and the translation of a union is the union of the translations. -/
theorem events_translation_is_bitwise (c : Config) (events a b : Nat)
    (hRO : c.HEV_TASK_IO_REACTOR_EV_RO ≠ 0) (hWO : c.HEV_TASK_IO_REACTOR_EV_WO ≠ 0)
    (hER : c.HEV_TASK_IO_REACTOR_EV_ER ≠ 0)
    (hRW : c.HEV_TASK_IO_REACTOR_EV_RO &&& c.HEV_TASK_IO_REACTOR_EV_WO = 0)
    (hRE : c.HEV_TASK_IO_REACTOR_EV_RO &&& c.HEV_TASK_IO_REACTOR_EV_ER = 0)
    (hWE : c.HEV_TASK_IO_REACTOR_EV_WO &&& c.HEV_TASK_IO_REACTOR_EV_ER = 0) :
    (hev_task_fd_events_to_reactor c events &&& c.HEV_TASK_IO_REACTOR_EV_RO
        = c.HEV_TASK_IO_REACTOR_EV_RO ↔ events &&& c.POLLIN ≠ 0) ∧
    (hev_task_fd_events_to_reactor c events &&& c.HEV_TASK_IO_REACTOR_EV_WO
        = c.HEV_TASK_IO_REACTOR_EV_WO ↔ events &&& c.POLLOUT ≠ 0) ∧
    (hev_task_fd_events_to_reactor c events &&& c.HEV_TASK_IO_REACTOR_EV_ER
        = c.HEV_TASK_IO_REACTOR_EV_ER ↔ events &&& c.POLLERR ≠ 0) ∧
    (hev_task_fd_events_to_reactor c events &&&
        (c.HEV_TASK_IO_REACTOR_EV_RO ||| c.HEV_TASK_IO_REACTOR_EV_WO |||
          c.HEV_TASK_IO_REACTOR_EV_ER)
      = hev_task_fd_events_to_reactor c events) ∧
    (hev_task_fd_events_to_reactor c (events &&& (c.POLLIN ||| c.POLLOUT ||| c.POLLERR))
      = hev_task_fd_events_to_reactor c events) ∧
    (hev_task_fd_events_to_reactor c (a ||| b)
      = hev_task_fd_events_to_reactor c a ||| hev_task_fd_events_to_reactor c b) := by
  have hWR : c.HEV_TASK_IO_REACTOR_EV_WO &&& c.HEV_TASK_IO_REACTOR_EV_RO = 0 := by
    rw [Nat.and_comm]; exact hRW
  have hER' : c.HEV_TASK_IO_REACTOR_EV_ER &&& c.HEV_TASK_IO_REACTOR_EV_RO = 0 := by
    rw [Nat.and_comm]; exact hRE
  have hEW : c.HEV_TASK_IO_REACTOR_EV_ER &&& c.HEV_TASK_IO_REACTOR_EV_WO = 0 := by
    rw [Nat.and_comm]; exact hWE
  refine ⟨?_, ?_, ?_, ?_, ?_, ?_⟩
  · rw [hev_task_fd_events_to_reactor_eq]
    exact selected_iff _ _ _ _ hRO (land_ite_zero _ _ _ hRW) (land_ite_zero _ _ _ hRE)
  · rw [hev_task_fd_events_to_reactor_eq,
      Nat.or_comm (if events &&& c.POLLIN ≠ 0 then c.HEV_TASK_IO_REACTOR_EV_RO else 0)]
    exact selected_iff _ _ _ _ hWO (land_ite_zero _ _ _ hWR) (land_ite_zero _ _ _ hWE)
  · rw [hev_task_fd_events_to_reactor_eq, Nat.or_comm, ← Nat.or_assoc]
    exact selected_iff _ _ _ _ hER (land_ite_zero _ _ _ hER') (land_ite_zero _ _ _ hEW)
  · rw [hev_task_fd_events_to_reactor_eq]
    apply Nat.eq_of_testBit_eq
    intro i
    simp only [Nat.testBit_and, Nat.testBit_or]
    split_ifs <;> (try simp only [Nat.zero_testBit]) <;>
      generalize c.HEV_TASK_IO_REACTOR_EV_RO.testBit i = r <;>
      generalize c.HEV_TASK_IO_REACTOR_EV_WO.testBit i = u <;>
      generalize c.HEV_TASK_IO_REACTOR_EV_ER.testBit i = e <;>
      revert r u e <;> decide
  · have hmask : ∀ m, m &&& (c.POLLIN ||| c.POLLOUT ||| c.POLLERR) = m →
        events &&& (c.POLLIN ||| c.POLLOUT ||| c.POLLERR) &&& m = events &&& m := by
      intro m hm
      rw [Nat.and_assoc, Nat.and_comm _ m, hm]
    have hin : c.POLLIN &&& (c.POLLIN ||| c.POLLOUT ||| c.POLLERR) = c.POLLIN := by
      apply Nat.eq_of_testBit_eq
      intro i
      simp only [Nat.testBit_and, Nat.testBit_or]
      cases c.POLLIN.testBit i <;> simp
    have hout : c.POLLOUT &&& (c.POLLIN ||| c.POLLOUT ||| c.POLLERR) = c.POLLOUT := by
      apply Nat.eq_of_testBit_eq
      intro i
      simp only [Nat.testBit_and, Nat.testBit_or]
      cases c.POLLOUT.testBit i <;> simp
    have herr : c.POLLERR &&& (c.POLLIN ||| c.POLLOUT ||| c.POLLERR) = c.POLLERR := by
      apply Nat.eq_of_testBit_eq
      intro i
      simp only [Nat.testBit_and, Nat.testBit_or]
      cases c.POLLERR.testBit i <;> simp
    rw [hev_task_fd_events_to_reactor_eq, hev_task_fd_events_to_reactor_eq,
      hmask _ hin, hmask _ hout, hmask _ herr]
  · rw [hev_task_fd_events_to_reactor_eq, hev_task_fd_events_to_reactor_eq,
      hev_task_fd_events_to_reactor_eq]
    simp only [lor_land_ne_zero]
    apply Nat.eq_of_testBit_eq
    intro i
    simp only [Nat.testBit_or]
    by_cases h1 : a &&& c.POLLIN ≠ 0 <;> by_cases h2 : b &&& c.POLLIN ≠ 0 <;>
    by_cases h3 : a &&& c.POLLOUT ≠ 0 <;> by_cases h4 : b &&& c.POLLOUT ≠ 0 <;>
    by_cases h5 : a &&& c.POLLERR ≠ 0 <;> by_cases h6 : b &&& c.POLLERR ≠ 0 <;>
    simp only [h1, h2, h3, h4, h5, h6, or_self, or_true, or_false, true_or, false_or,
      if_true, if_false, Nat.zero_testBit, ne_eq, not_true_eq_false, not_false_eq_true] <;>
    generalize c.HEV_TASK_IO_REACTOR_EV_RO.testBit i = r <;>
    generalize c.HEV_TASK_IO_REACTOR_EV_WO.testBit i = u <;>
    generalize c.HEV_TASK_IO_REACTOR_EV_ER.testBit i = e <;>
    revert r u e <;> decide

/-- C11 instance: `POLLIN | POLLERR` plus a stray bit, with the example
constants. -/
theorem events_translation_is_bitwise_witness :
    (hev_task_fd_events_to_reactor exampleConfig 25 &&&
        exampleConfig.HEV_TASK_IO_REACTOR_EV_RO
        = exampleConfig.HEV_TASK_IO_REACTOR_EV_RO ↔ 25 &&& exampleConfig.POLLIN ≠ 0) ∧
    (hev_task_fd_events_to_reactor exampleConfig 25 &&&
        exampleConfig.HEV_TASK_IO_REACTOR_EV_WO
        = exampleConfig.HEV_TASK_IO_REACTOR_EV_WO ↔ 25 &&& exampleConfig.POLLOUT ≠ 0) ∧
    (hev_task_fd_events_to_reactor exampleConfig 25 &&&
        exampleConfig.HEV_TASK_IO_REACTOR_EV_ER
        = exampleConfig.HEV_TASK_IO_REACTOR_EV_ER ↔ 25 &&& exampleConfig.POLLERR ≠ 0) ∧
    (hev_task_fd_events_to_reactor exampleConfig 25 &&&
        (exampleConfig.HEV_TASK_IO_REACTOR_EV_RO ||| exampleConfig.HEV_TASK_IO_REACTOR_EV_WO |||
          exampleConfig.HEV_TASK_IO_REACTOR_EV_ER)
      = hev_task_fd_events_to_reactor exampleConfig 25) ∧
    (hev_task_fd_events_to_reactor exampleConfig
        (25 &&& (exampleConfig.POLLIN ||| exampleConfig.POLLOUT ||| exampleConfig.POLLERR))
      = hev_task_fd_events_to_reactor exampleConfig 25) ∧
    (hev_task_fd_events_to_reactor exampleConfig (1 ||| 4)
      = hev_task_fd_events_to_reactor exampleConfig 1 |||
        hev_task_fd_events_to_reactor exampleConfig 4) :=
  events_translation_is_bitwise exampleConfig 25 1 4
    (by decide) (by decide) (by decide) (by decide) (by decide) (by decide)

/-! ## Descriptor registration -/

/-- The call wrapper for the reactor returns the reactor's status, keeps the
heap and context the reactor produced, and appends exactly one call to the
trace. -/
theorem hev_task_io_reactor_setup_spec (env : Env) (w : World) (reactor : Ptr)
    (event : HevTaskIOReactorSetupEvent) (count : Nat) :
    (hev_task_io_reactor_setup env w reactor event count).1
      = (env.hev_task_io_reactor_setup w reactor event count).1 ∧
    (hev_task_io_reactor_setup env w reactor event count).2.heap
      = (env.hev_task_io_reactor_setup w reactor event count).2.heap ∧
    (hev_task_io_reactor_setup env w reactor event count).2.trace
      = w.trace ++ [Call.hev_task_io_reactor_setup reactor event count] :=
  ⟨rfl, rfl, rfl⟩

/-- The failing example reactor does not write to the heap. -/
theorem failingReactorEnv_keeps_heap : ReactorSetupKeepsHeap failingReactorEnv := by
  intro w reactor event count
  rfl

/-- The example reactor does not write to the heap. -/
theorem exampleEnv_keeps_heap : ReactorSetupKeepsHeap exampleEnv := by
  intro w reactor event count
  rfl

/-- C12. `hev_task_add_fd`, `hev_task_mod_fd` and `hev_task_del_fd` each hand
the unmodified state to the reactor of the current system context with exactly
one setup event and return the reactor's status as it is: the event is
`(fd, ADD, translate(events), &task->sched_entity)` for add,
`(fd, MOD, translate(events), &task->sched_entity)` for mod and
`(fd, DEL, 0, NULL)` for del, and the trace grows by that single call.  They
write nothing themselves, so when the reactor's `setup` does not write to the
heap, every task record is as before. -/
theorem fd_calls_submit_one_setup_event (c : Config) (env : Env) (w : World) (self : Ptr)
    (fd : Int) (events : Nat) :
    (hev_task_add_fd c env w self fd events).1
        = (env.hev_task_io_reactor_setup w w.ctx.reactor
            { fd := fd, op := HevTaskIOReactorOp.HEV_TASK_IO_REACTOR_OP_ADD,
              events := hev_task_fd_events_to_reactor c events,
              data := EntityRef.sched_entity self } 1).1 ∧
    (hev_task_add_fd c env w self fd events).2.trace
        = w.trace ++ [Call.hev_task_io_reactor_setup w.ctx.reactor
            { fd := fd, op := HevTaskIOReactorOp.HEV_TASK_IO_REACTOR_OP_ADD,
              events := hev_task_fd_events_to_reactor c events,
              data := EntityRef.sched_entity self } 1] ∧
    (hev_task_mod_fd c env w self fd events).1
        = (env.hev_task_io_reactor_setup w w.ctx.reactor
            { fd := fd, op := HevTaskIOReactorOp.HEV_TASK_IO_REACTOR_OP_MOD,
              events := hev_task_fd_events_to_reactor c events,
              data := EntityRef.sched_entity self } 1).1 ∧
    (hev_task_mod_fd c env w self fd events).2.trace
        = w.trace ++ [Call.hev_task_io_reactor_setup w.ctx.reactor
            { fd := fd, op := HevTaskIOReactorOp.HEV_TASK_IO_REACTOR_OP_MOD,
              events := hev_task_fd_events_to_reactor c events,
              data := EntityRef.sched_entity self } 1] ∧
    (hev_task_del_fd env w self fd).1
        = (env.hev_task_io_reactor_setup w w.ctx.reactor
            { fd := fd, op := HevTaskIOReactorOp.HEV_TASK_IO_REACTOR_OP_DEL,
              events := 0, data := EntityRef.null } 1).1 ∧
    (hev_task_del_fd env w self fd).2.trace
        = w.trace ++ [Call.hev_task_io_reactor_setup w.ctx.reactor
            { fd := fd, op := HevTaskIOReactorOp.HEV_TASK_IO_REACTOR_OP_DEL,
              events := 0, data := EntityRef.null } 1] ∧
    (ReactorSetupKeepsHeap env →
      (hev_task_add_fd c env w self fd events).2.heap = w.heap ∧
      (hev_task_mod_fd c env w self fd events).2.heap = w.heap ∧
      (hev_task_del_fd env w self fd).2.heap = w.heap) := by
  refine ⟨rfl, rfl, rfl, rfl, rfl, rfl, ?_⟩
  intro hkeep
  exact ⟨hkeep _ _ _ _, hkeep _ _ _ _, hkeep _ _ _ _⟩

/-- C12 instance: a reactor that rejects every event with `-1`: the three
calls return `-1` and leave the example task record in place. -/
theorem fd_calls_submit_one_setup_event_witness :
    (hev_task_add_fd exampleConfig failingReactorEnv exampleWorld 4096 5 1).1 = -1 ∧
    (hev_task_mod_fd exampleConfig failingReactorEnv exampleWorld 4096 5 4).1 = -1 ∧
    (hev_task_del_fd failingReactorEnv exampleWorld 4096 5).1 = -1 ∧
    (hev_task_add_fd exampleConfig failingReactorEnv exampleWorld 4096 5 1).2.heap
      = exampleWorld.heap ∧
    (hev_task_mod_fd exampleConfig failingReactorEnv exampleWorld 4096 5 1).2.heap
      = exampleWorld.heap ∧
    (hev_task_del_fd failingReactorEnv exampleWorld 4096 5).2.heap = exampleWorld.heap :=
  ⟨(fd_calls_submit_one_setup_event exampleConfig failingReactorEnv exampleWorld 4096 5 1).1,
    (fd_calls_submit_one_setup_event exampleConfig failingReactorEnv exampleWorld 4096 5 4).2.2.1,
    (fd_calls_submit_one_setup_event exampleConfig failingReactorEnv exampleWorld 4096 5 1).2.2.2.2.1,
    (fd_calls_submit_one_setup_event exampleConfig failingReactorEnv exampleWorld 4096 5 1).2.2.2.2.2.2
      failingReactorEnv_keeps_heap⟩

/-- C13. When the reactor is not one-shot, `hev_task_res_fd` returns 0 and
leaves the state, trace included, untouched, so no setup event is submitted;
when the reactor is one-shot, `hev_task_res_fd` returns the same status and
produces the same state and trace as `hev_task_mod_fd` with the same
arguments. -/
theorem res_fd_rearms_only_one_shot (c : Config) (env : Env) (w : World) (self : Ptr)
    (fd : Int) (events : Nat) :
    (env.hev_task_io_reactor_get_oneshot w = 0 →
      hev_task_res_fd c env w self fd events = (0, w) ∧
      (hev_task_res_fd c env w self fd events).2.trace = w.trace) ∧
    (env.hev_task_io_reactor_get_oneshot w ≠ 0 →
      hev_task_res_fd c env w self fd events = hev_task_mod_fd c env w self fd events) := by
  constructor
  · intro h
    have : hev_task_res_fd c env w self fd events = (0, w) := by
      simp [hev_task_res_fd, h]
    exact ⟨this, by rw [this]⟩
  · intro h
    simp [hev_task_res_fd, h]

/-- C13 instance: the example reactor is one-shot, the level-triggered one is
not. -/
theorem res_fd_rearms_only_one_shot_witness :
    hev_task_res_fd exampleConfig levelTriggeredEnv exampleWorld 4096 5 1 = (0, exampleWorld) ∧
    hev_task_res_fd exampleConfig exampleEnv exampleWorld 4096 5 1
      = hev_task_mod_fd exampleConfig exampleEnv exampleWorld 4096 5 1 :=
  ⟨((res_fd_rearms_only_one_shot exampleConfig levelTriggeredEnv exampleWorld 4096 5 1).1
      rfl).1,
    (res_fd_rearms_only_one_shot exampleConfig exampleEnv exampleWorld 4096 5 1).2
      (by decide)⟩

/-! ## Allocation failure -/

/-- When the record allocation fails, `hev_task_new` returns `NULL` after that
single allocator call. -/
theorem hev_task_new_record_fails (c : Config) (w : World) (stack_size : Int)
    (stack_reply : Ptr) :
    hev_task_new c w stack_size NULL stack_reply
      = Except.ok (NULL, w.log (Call.hev_malloc0 NULL)) := by
  simp [hev_task_new, hev_malloc0]

/-- When the record allocation succeeds and the stack allocation fails,
`hev_task_new` frees the record and returns `NULL`. -/
theorem hev_task_new_stack_fails (c : Config) (w : World) (stack_size : Int) (rec_reply : Ptr)
    (hrec : rec_reply ≠ NULL) :
    ∃ w', hev_task_new c w stack_size rec_reply NULL = Except.ok (NULL, w') ∧
      (∀ q, w'.heap q = if q = rec_reply then none else w.heap q) ∧
      w'.ctx = w.ctx ∧
      w'.trace = w.trace ++ [Call.hev_malloc0 rec_reply,
        Call.hev_malloc (if stack_size = -1 then HEV_TASK_STACK_SIZE else stack_size) NULL,
        Call.hev_free rec_reply] := by
  have hrec0 : ¬ rec_reply = 0 := hrec
  simp only [hev_task_new, hev_malloc0, hev_malloc, hrec, hrec0, bind, Except.bind, World.task,
    hev_free, store_heap, log_heap, if_true, if_false, reduceIte, NULL]
  refine ⟨_, rfl, ?_, ?_, ?_⟩
  · intro q
    by_cases hq : q = rec_reply <;> simp [hq]
  · simp
  · simp

/-- C14. With an allocator that hands out fresh blocks (the record block is
not live before the call; the stack block differs from the record block),
`hev_task_new` returns a null handle iff the record allocation or the stack
allocation fails.  When the record allocation fails it is the only allocator
call; when the stack allocation fails the record is freed before returning;
after a failed `hev_task_new` the heap is the heap before the call. -/
theorem hev_task_new_null_iff_allocation_fails (c : Config) (w : World) (stack_size : Int)
    (rec_reply stack_reply : Ptr)
    (hfresh : rec_reply ≠ NULL → w.heap rec_reply = none)
    (hdistinct : stack_reply ≠ NULL → stack_reply ≠ rec_reply) :
    ∃ h w', hev_task_new c w stack_size rec_reply stack_reply = Except.ok (h, w') ∧
      (h = NULL ↔ rec_reply = NULL ∨ stack_reply = NULL) ∧
      (rec_reply = NULL → w'.trace = w.trace ++ [Call.hev_malloc0 NULL]) ∧
      (rec_reply ≠ NULL → stack_reply = NULL →
        w'.trace = w.trace ++ [Call.hev_malloc0 rec_reply,
          Call.hev_malloc (if stack_size = -1 then HEV_TASK_STACK_SIZE else stack_size) NULL,
          Call.hev_free rec_reply]) ∧
      (h = NULL → w'.heap = w.heap ∧ w'.ctx = w.ctx) := by
  by_cases hrec : rec_reply = NULL
  · subst hrec
    exact ⟨NULL, _, hev_task_new_record_fails c w stack_size stack_reply, by simp,
      fun _ => rfl, fun h => absurd rfl h, fun _ => ⟨rfl, rfl⟩⟩
  · by_cases hstk : stack_reply = NULL
    · subst hstk
      obtain ⟨w', hnew, hheap, hctx, htrace⟩ :=
        hev_task_new_stack_fails c w stack_size rec_reply hrec
      refine ⟨NULL, w', hnew, by simp, fun h => absurd h hrec, fun _ _ => htrace, ?_⟩
      intro _
      refine ⟨?_, hctx⟩
      funext q
      rw [hheap q]
      by_cases hq : q = rec_reply
      · rw [hq, hfresh hrec]; simp
      · simp [hq]
    · obtain ⟨w', hnew, -, -, -, -, -⟩ :=
        hev_task_new_ok c w stack_size rec_reply stack_reply hrec hstk (hdistinct hstk)
      refine ⟨rec_reply, w', hnew, ?_, fun h => absurd h hrec, fun _ h => absurd h hstk, ?_⟩
      · simp [hrec, hstk]
      · intro h
        exact absurd h hrec

/-- C14 instance: the record is placed at 4096 and the stack allocation
fails. -/
theorem hev_task_new_null_iff_allocation_fails_witness :
    ∃ h w', hev_task_new exampleConfig emptyWorld 4096 4096 NULL = Except.ok (h, w') ∧
      (h = NULL ↔ (4096 : Ptr) = NULL ∨ NULL = NULL) ∧
      ((4096 : Ptr) = NULL → w'.trace = emptyWorld.trace ++ [Call.hev_malloc0 NULL]) ∧
      ((4096 : Ptr) ≠ NULL → NULL = NULL →
        w'.trace = emptyWorld.trace ++ [Call.hev_malloc0 4096,
          Call.hev_malloc (if (4096 : Int) = -1 then HEV_TASK_STACK_SIZE else 4096) NULL,
          Call.hev_free 4096]) ∧
      (h = NULL → w'.heap = emptyWorld.heap ∧ w'.ctx = emptyWorld.ctx) :=
  hev_task_new_null_iff_allocation_fails exampleConfig emptyWorld 4096 4096 NULL
    (fun _ => rfl) (fun h => absurd rfl h)

/-- C15. Once the record is allocated, `hev_task_new (-1)` asks the allocator
for a stack of exactly 65536 bytes and `hev_task_new (s)` with any other `s`
asks for `s` bytes: it is the second allocator call of the trace.  When the
stack allocation succeeds too, the same number is recorded in `stack_size`. -/
theorem hev_task_new_requests_stack_size (c : Config) (w : World) (stack_size : Int)
    (rec_reply stack_reply : Ptr)
    (hrec : rec_reply ≠ NULL) (hdistinct : stack_reply ≠ NULL → stack_reply ≠ rec_reply) :
    ∃ h w' size rest,
      hev_task_new c w stack_size rec_reply stack_reply = Except.ok (h, w') ∧
      (stack_size = -1 → size = 65536) ∧ (stack_size ≠ -1 → size = stack_size) ∧
      w'.trace = w.trace ++
        [Call.hev_malloc0 rec_reply, Call.hev_malloc size stack_reply] ++ rest ∧
      (stack_reply ≠ NULL →
        ∃ t, h = rec_reply ∧ w'.heap rec_reply = some (Block.task t) ∧ t.stack_size = size) := by
  have hsize1 : stack_size = -1 →
      (if stack_size = -1 then HEV_TASK_STACK_SIZE else stack_size) = 65536 := by
    intro h
    simp [h, HEV_TASK_STACK_SIZE]
  have hsize2 : stack_size ≠ -1 →
      (if stack_size = -1 then HEV_TASK_STACK_SIZE else stack_size) = stack_size := by
    intro h
    simp [h]
  by_cases hstk : stack_reply = NULL
  · subst hstk
    obtain ⟨w', hnew, -, -, htrace⟩ := hev_task_new_stack_fails c w stack_size rec_reply hrec
    refine ⟨NULL, w', _, [Call.hev_free rec_reply], hnew, hsize1, hsize2, ?_,
      fun h => absurd rfl h⟩
    rw [htrace]
    simp
  · obtain ⟨w', hnew, hheap, -, -, -, htrace⟩ :=
      hev_task_new_ok c w stack_size rec_reply stack_reply hrec hstk (hdistinct hstk)
    refine ⟨rec_reply, w', _, [], hnew, hsize1, hsize2, ?_, fun _ => ⟨_, rfl, hheap, rfl⟩⟩
    rw [htrace]
    simp

/-- C15 instance: the default stack, record at 4096, stack at 8192. -/
theorem hev_task_new_requests_stack_size_witness :
    ∃ h w' size rest,
      hev_task_new exampleConfig emptyWorld (-1) 4096 8192 = Except.ok (h, w') ∧
      ((-1 : Int) = -1 → size = 65536) ∧ ((-1 : Int) ≠ -1 → size = -1) ∧
      w'.trace = emptyWorld.trace ++
        [Call.hev_malloc0 4096, Call.hev_malloc size 8192] ++ rest ∧
      ((8192 : Ptr) ≠ NULL →
        ∃ t, h = 4096 ∧ w'.heap 4096 = some (Block.task t) ∧ t.stack_size = size) :=
  hev_task_new_requests_stack_size exampleConfig emptyWorld (-1) 4096 8192
    (by decide) (fun _ => by decide)

/-! ## Stack-overflow sentinel -/

/-- With detection on, `hev_task_unref` on a live task whose count drops to
zero and whose lowest stack word differs from the tag fails its assertion. -/
theorem hev_task_unref_abort (c : Config) (w : World) (self : Ptr) (t : HevTask) (v : Nat)
    (hon : c.ENABLE_STACK_OVERFLOW_DETECTION = true)
    (h : w.heap self = some (Block.task t))
    (hrc : (t.ref_count + UINT_MOD - 1) % UINT_MOD = 0)
    (hstack : w.heap t.stack = some (Block.raw (some v)))
    (hv : v ≠ STACK_OVERFLOW_DETECTION_TAG) :
    hev_task_unref c w self = Except.error Fault.assertion_failed := by
  have hne : t.stack ≠ self := by
    intro heq
    rw [heq, h] at hstack
    cases hstack
  simp [hev_task_unref, task_of_heap h, bind, Except.bind, hrc, hon, World.word0, hne, hstack,
    hv]

/-- C16. With stack-overflow detection enabled: `hev_task_new` stamps the
lowest word of the stack with `0xDEADBEEF`; a `hev_task_unref` that brings
`ref_count` to zero fails its assertion iff that word no longer equals
`0xDEADBEEF`, and otherwise frees the stack and the record; a `hev_task_unref`
that leaves `ref_count` non-zero succeeds whatever the stack holds; and a task
that is released right after `hev_task_new`, its stack untouched, is destroyed
without abort. -/
theorem sentinel_checked_at_final_unref (c : Config)
    (hon : c.ENABLE_STACK_OVERFLOW_DETECTION = true) :
    STACK_OVERFLOW_DETECTION_TAG = 0xDEADBEEF ∧
    (∀ (w : World) (stack_size : Int) (rec_reply stack_reply : Ptr),
      rec_reply ≠ NULL → stack_reply ≠ NULL → stack_reply ≠ rec_reply →
      ∃ w', hev_task_new c w stack_size rec_reply stack_reply = Except.ok (rec_reply, w') ∧
        w'.heap stack_reply = some (Block.raw (some STACK_OVERFLOW_DETECTION_TAG))) ∧
    (∀ (w : World) (self : Ptr) (t : HevTask) (v : Nat),
      w.heap self = some (Block.task t) →
      (t.ref_count + UINT_MOD - 1) % UINT_MOD = 0 →
      w.heap t.stack = some (Block.raw (some v)) →
      (hev_task_unref c w self = Except.error Fault.assertion_failed
          ↔ v ≠ STACK_OVERFLOW_DETECTION_TAG) ∧
      (v = STACK_OVERFLOW_DETECTION_TAG →
        ∃ w', hev_task_unref c w self = Except.ok w' ∧
          w'.heap self = none ∧ w'.heap t.stack = none)) ∧
    (∀ (w : World) (self : Ptr) (t : HevTask),
      w.heap self = some (Block.task t) →
      (t.ref_count + UINT_MOD - 1) % UINT_MOD ≠ 0 →
      hev_task_unref c w self = Except.ok
        (w.store self
          (Block.task { t with ref_count := (t.ref_count + UINT_MOD - 1) % UINT_MOD }))) ∧
    (∀ (w : World) (stack_size : Int) (rec_reply stack_reply : Ptr),
      rec_reply ≠ NULL → stack_reply ≠ NULL → stack_reply ≠ rec_reply →
      ∃ w1 w2, hev_task_new c w stack_size rec_reply stack_reply = Except.ok (rec_reply, w1) ∧
        hev_task_unref c w1 rec_reply = Except.ok w2 ∧
        w2.heap rec_reply = none ∧ w2.heap stack_reply = none) := by
  refine ⟨rfl, ?_, ?_, ?_, ?_⟩
  · intro w stack_size rec_reply stack_reply hrec hstk hne
    obtain ⟨w', hnew, -, hstack, -, -, -⟩ :=
      hev_task_new_ok c w stack_size rec_reply stack_reply hrec hstk hne
    rw [hon] at hstack
    exact ⟨w', hnew, hstack⟩
  · intro w self t v hlive hrc hstack
    have hgood : v = STACK_OVERFLOW_DETECTION_TAG →
        ∃ w', hev_task_unref c w self = Except.ok w' ∧
          w'.heap self = none ∧ w'.heap t.stack = none := by
      intro hv
      obtain ⟨w', hun, h1, h2, -, -, -⟩ :=
        hev_task_unref_destroy c w self t (some v) hlive hrc hstack (fun _ => by rw [hv])
      exact ⟨w', hun, h1, h2⟩
    refine ⟨⟨?_, fun hv => hev_task_unref_abort c w self t v hon hlive hrc hstack hv⟩, hgood⟩
    intro hfail hv
    obtain ⟨w', hun, -, -⟩ := hgood hv
    rw [hun] at hfail
    cases hfail
  · intro w self t hlive hrc
    exact hev_task_unref_keep hlive hrc
  · intro w stack_size rec_reply stack_reply hrec hstk hne
    obtain ⟨w1, hnew, hheap, hstack, -, -, -⟩ :=
      hev_task_new_ok c w stack_size rec_reply stack_reply hrec hstk hne
    rw [hon] at hstack
    obtain ⟨w2, hun, h1, h2, -, -, -⟩ :=
      hev_task_unref_destroy c w1 rec_reply _ (some STACK_OVERFLOW_DETECTION_TAG) hheap
        (by norm_num [UINT_MOD]) hstack (fun _ => rfl)
    exact ⟨w1, w2, hnew, hun, h1, h2⟩

/-- C16 instance: the example task after it overran its stack aborts at its
last `hev_task_unref`; with the tag intact it is freed. -/
theorem sentinel_checked_at_final_unref_witness :
    hev_task_unref exampleConfig overrunWorld 4096 = Except.error Fault.assertion_failed ∧
    (∃ w', hev_task_unref exampleConfig exampleWorld 4096 = Except.ok w' ∧
      w'.heap 4096 = none ∧ w'.heap exampleTask.stack = none) :=
  ⟨((sentinel_checked_at_final_unref exampleConfig rfl).2.2.1 overrunWorld 4096 exampleTask 0
      rfl (by decide) rfl).1.mpr (by decide),
    ((sentinel_checked_at_final_unref exampleConfig rfl).2.2.1 exampleWorld 4096 exampleTask
      STACK_OVERFLOW_DETECTION_TAG rfl (by decide) rfl).2 rfl⟩

/-! ## Stack top -/

/-- Clearing the four low bits of `n` gives the greatest multiple of 16 that
is at most `n`. -/
theorem align16_greatest (n : Nat) :
    (((n - n % 16 : Nat) : Nat) : Int) = (n : Int) - (n : Int) % 16 ∧
    (16 : Int) ∣ ((n - n % 16 : Nat) : Int) ∧
    (∀ m : Int, (16 : Int) ∣ m → m ≤ (n : Int) → m ≤ ((n - n % 16 : Nat) : Int)) ∧
    0 ≤ (n : Int) - ((n - n % 16 : Nat) : Int) ∧
    (n : Int) - ((n - n % 16 : Nat) : Int) < 16 := by
  refine ⟨by omega, ?_, ?_, by omega, by omega⟩
  · exact ⟨((n / 16 : Nat) : Int), by omega⟩
  · intro m hm hle
    obtain ⟨k, hk⟩ := hm
    omega

/-- C17. When the end of the buffer `stack + stack_size` stays inside the
64-bit address space, the `stack_top` that `hev_task_new` computes is
`(stack + stack_size) - (stack + stack_size) mod 16`: a multiple of 16, the
greatest one that is at most `stack + stack_size`, less than 16 below it. -/
theorem hev_task_new_stack_top_greatest_aligned (c : Config) (w : World) (stack_size : Int)
    (rec_reply stack_reply : Ptr)
    (hrec : rec_reply ≠ NULL) (hstk : stack_reply ≠ NULL) (hne : stack_reply ≠ rec_reply)
    (hlow : 0 ≤ (stack_reply : Int)
      + (if stack_size = -1 then HEV_TASK_STACK_SIZE else stack_size))
    (hfit : (stack_reply : Int) + (if stack_size = -1 then HEV_TASK_STACK_SIZE else stack_size)
      < (UINTPTR_MOD : Int)) :
    ∃ w' t, hev_task_new c w stack_size rec_reply stack_reply = Except.ok (rec_reply, w') ∧
      w'.heap rec_reply = some (Block.task t) ∧
      t.stack = stack_reply ∧
      t.stack_size = (if stack_size = -1 then HEV_TASK_STACK_SIZE else stack_size) ∧
      (t.stack_top : Int)
        = ((t.stack : Int) + t.stack_size) - ((t.stack : Int) + t.stack_size) % 16 ∧
      (16 : Int) ∣ (t.stack_top : Int) ∧
      (∀ m : Int, (16 : Int) ∣ m → m ≤ (t.stack : Int) + t.stack_size →
        m ≤ (t.stack_top : Int)) ∧
      0 ≤ ((t.stack : Int) + t.stack_size) - (t.stack_top : Int) ∧
      ((t.stack : Int) + t.stack_size) - (t.stack_top : Int) < 16 := by
  obtain ⟨w', hnew, hheap, -, -, -, -⟩ :=
    hev_task_new_ok c w stack_size rec_reply stack_reply hrec hstk hne
  refine ⟨w', _, hnew, hheap, rfl, rfl, ?_⟩
  generalize (if stack_size = -1 then HEV_TASK_STACK_SIZE else stack_size) = sz at *
  have hmod : UINTPTR_MOD = 18446744073709551616 := by norm_num [UINTPTR_MOD]
  obtain ⟨n, hn⟩ := Int.eq_ofNat_of_zero_le hlow
  have hnlt : n < UINTPTR_MOD := by
    rw [hmod] at hfit ⊢
    rw [hn] at hfit
    exact_mod_cast hfit
  have heq : (((stack_reply : Int) + sz) % (UINTPTR_MOD : Int)).toNat = n := by
    rw [hn]
    have : ((n : Int) % (UINTPTR_MOD : Int)) = ((n % UINTPTR_MOD : Nat) : Int) := by
      norm_cast
    rw [this, Int.toNat_ofNat, Nat.mod_eq_of_lt hnlt]
  show ((ALIGN_DOWN (((stack_reply : Int) + sz) % (UINTPTR_MOD : Int)).toNat 16 : Nat) : Int)
      = ((stack_reply : Int) + sz) - ((stack_reply : Int) + sz) % 16 ∧
    (16 : Int) ∣ ((ALIGN_DOWN (((stack_reply : Int) + sz) % (UINTPTR_MOD : Int)).toNat 16
      : Nat) : Int) ∧
    (∀ m : Int, (16 : Int) ∣ m → m ≤ (stack_reply : Int) + sz →
      m ≤ ((ALIGN_DOWN (((stack_reply : Int) + sz) % (UINTPTR_MOD : Int)).toNat 16
        : Nat) : Int)) ∧
    0 ≤ ((stack_reply : Int) + sz)
      - ((ALIGN_DOWN (((stack_reply : Int) + sz) % (UINTPTR_MOD : Int)).toNat 16 : Nat) : Int) ∧
    ((stack_reply : Int) + sz)
      - ((ALIGN_DOWN (((stack_reply : Int) + sz) % (UINTPTR_MOD : Int)).toNat 16 : Nat) : Int)
      < 16
  rw [heq, ALIGN_DOWN_16 n hnlt, hn]
  exact align16_greatest n

/-- C17 instance: a 100-byte stack at address 8200 has its top at 8288. -/
theorem hev_task_new_stack_top_greatest_aligned_witness :
    ∃ w' t, hev_task_new exampleConfig emptyWorld 100 4096 8200 = Except.ok (4096, w') ∧
      w'.heap 4096 = some (Block.task t) ∧ t.stack = 8200 ∧ t.stack_size = 100 ∧
      (t.stack_top : Int) = 8288 := by
  obtain ⟨w', t, hnew, hheap, hs, hsz, htop, -⟩ :=
    hev_task_new_stack_top_greatest_aligned exampleConfig emptyWorld 100 4096 8200
      (by decide) (by decide) (by decide) (by decide) (by decide)
  refine ⟨w', t, hnew, hheap, hs, hsz, ?_⟩
  rw [htop, hs, hsz]
  decide

/-! ## Priority range -/

/-- A state with the same heap satisfies the same range invariant. -/
theorem PrioritiesInRange_of_heap_eq {c : Config} {w w' : World} {self : Ptr} {ran : Bool}
    (hheap : w'.heap = w.heap) (h : PrioritiesInRange c w self ran) :
    PrioritiesInRange c w' self ran := by
  obtain ⟨t, hlive, h1, h2, h3, h4⟩ := h
  exact ⟨t, by rw [hheap]; exact hlive, h1, h2, h3, h4⟩

/-- Every call of the task interface other than `unref` keeps the range
invariant, and a `run` establishes its second half. -/
theorem run_task_op_keeps_range (c : Config) (env : Env) (w : World) (self : Ptr) (op : TaskOp)
    (ran : Bool)
    (hrange : c.HEV_TASK_PRIORITY_MIN ≤ c.HEV_TASK_PRIORITY_MAX)
    (hsched : RunNewTaskKeepsClosure env) (hreactor : ReactorSetupKeepsHeap env)
    (hinv : PrioritiesInRange c w self ran) :
    ∃ w', run_task_op c env w self op = Except.ok w' ∧
      PrioritiesInRange c w' self (ran || op.is_run) := by
  obtain ⟨t, hlive, hlo, hhi, hran, hnot⟩ := hinv
  cases op with
  | set_priority p =>
    refine ⟨_, by simp [run_task_op, hev_task_set_priority, task_of_heap hlive, bind,
      Except.bind]; rfl, _, store_heap_self _ _ _, ?_, ?_, ?_, ?_⟩
    · show c.HEV_TASK_PRIORITY_MIN ≤
        (if p < c.HEV_TASK_PRIORITY_MIN then c.HEV_TASK_PRIORITY_MIN
         else if p > c.HEV_TASK_PRIORITY_MAX then c.HEV_TASK_PRIORITY_MAX else p)
      split_ifs <;> omega
    · show (if p < c.HEV_TASK_PRIORITY_MIN then c.HEV_TASK_PRIORITY_MIN
         else if p > c.HEV_TASK_PRIORITY_MAX then c.HEV_TASK_PRIORITY_MAX else p)
        ≤ c.HEV_TASK_PRIORITY_MAX
      split_ifs <;> omega
    · intro h
      exact hran (by simpa [TaskOp.is_run] using h)
    · intro h
      exact hnot (by simpa [TaskOp.is_run] using h)
  | ref =>
    refine ⟨w.store self (Block.task { t with ref_count := (t.ref_count + 1) % UINT_MOD }),
      by simp only [run_task_op, hev_task_ref_ok hlive], _, store_heap_self _ _ _,
      hlo, hhi, ?_, ?_⟩
    · intro h
      exact hran (by simpa [TaskOp.is_run] using h)
    · intro h
      exact hnot (by simpa [TaskOp.is_run] using h)
  | run entry data =>
    by_cases hstate : t.state = HevTaskState.HEV_TASK_STOPPED
    · obtain ⟨w', t', hrun, hheap, -, -, hp, hk, hn⟩ :=
        hev_task_run_stopped_post hlive hstate entry data hsched
      refine ⟨w', hrun, t', hheap, by rw [hn]; exact hlo, by rw [hn]; exact hhi, ?_, ?_⟩
      · intro _
        rw [hp, hk]
        exact ⟨hlo, hhi, hlo, hhi⟩
      · intro h
        simp [TaskOp.is_run] at h
    · have hr : ran = true := by
        cases ran with
        | true => rfl
        | false => exact absurd (hnot rfl) hstate
      refine ⟨w, hev_task_run_not_stopped hlive hstate entry data, t, hlive, hlo, hhi, ?_, ?_⟩
      · intro _
        exact hran hr
      · intro h
        simp [TaskOp.is_run] at h
  | add_fd fd events =>
    refine ⟨_, rfl, ?_⟩
    have : (ran || (TaskOp.add_fd fd events).is_run) = ran := by simp [TaskOp.is_run]
    rw [this]
    exact PrioritiesInRange_of_heap_eq (hreactor _ _ _ _) ⟨t, hlive, hlo, hhi, hran, hnot⟩
  | mod_fd fd events =>
    refine ⟨_, rfl, ?_⟩
    have : (ran || (TaskOp.mod_fd fd events).is_run) = ran := by simp [TaskOp.is_run]
    rw [this]
    exact PrioritiesInRange_of_heap_eq (hreactor _ _ _ _) ⟨t, hlive, hlo, hhi, hran, hnot⟩
  | del_fd fd =>
    refine ⟨_, rfl, ?_⟩
    have : (ran || (TaskOp.del_fd fd).is_run) = ran := by simp [TaskOp.is_run]
    rw [this]
    exact PrioritiesInRange_of_heap_eq (hreactor _ _ _ _) ⟨t, hlive, hlo, hhi, hran, hnot⟩
  | res_fd fd events =>
    refine ⟨_, rfl, ?_⟩
    have : (ran || (TaskOp.res_fd fd events).is_run) = ran := by simp [TaskOp.is_run]
    rw [this]
    by_cases hone : env.hev_task_io_reactor_get_oneshot w = 0
    · have : hev_task_res_fd c env w self fd events = (0, w) := by
        simp [hev_task_res_fd, hone]
      rw [this]
      exact ⟨t, hlive, hlo, hhi, hran, hnot⟩
    · have : hev_task_res_fd c env w self fd events
          = hev_task_mod_fd c env w self fd events := by
        simp [hev_task_res_fd, hone]
      rw [this]
      exact PrioritiesInRange_of_heap_eq (hreactor _ _ _ _) ⟨t, hlive, hlo, hhi, hran, hnot⟩

/-- Every sequence of calls of the task interface other than `unref` keeps the
range invariant; it holds in full once the sequence contains a `run`. -/
theorem run_task_ops_keeps_range (c : Config) (env : Env) (self : Ptr) (ops : List TaskOp)
    (hrange : c.HEV_TASK_PRIORITY_MIN ≤ c.HEV_TASK_PRIORITY_MAX)
    (hsched : RunNewTaskKeepsClosure env) (hreactor : ReactorSetupKeepsHeap env) :
    ∀ (w : World) (ran : Bool), PrioritiesInRange c w self ran →
      ∃ w', run_task_ops c env w self ops = Except.ok w' ∧
        PrioritiesInRange c w' self (ran || ops.any TaskOp.is_run) := by
  induction ops with
  | nil =>
    intro w ran hinv
    exact ⟨w, rfl, by simpa using hinv⟩
  | cons op ops ih =>
    intro w ran hinv
    obtain ⟨w1, hop, hinv1⟩ := run_task_op_keeps_range c env w self op ran hrange hsched hreactor
      hinv
    obtain ⟨w2, hops, hinv2⟩ := ih w1 (ran || op.is_run) hinv1
    refine ⟨w2, by simp only [run_task_ops, hop, hops], ?_⟩
    have : (ran || (op :: ops).any TaskOp.is_run)
        = ((ran || op.is_run) || ops.any TaskOp.is_run) := by
      simp [Bool.or_assoc]
    rw [this]
    exact hinv2

/-- C18. Assume `PRIORITY_MIN ≤ PRIORITY_DEFAULT ≤ PRIORITY_MAX`, a scheduler
whose `run_new_task` does not overwrite the priorities and a reactor whose
`setup` does not write to the heap.  For every task created by `hev_task_new`
and every finite sequence of `set_priority`, `ref`, `run` and descriptor
registration calls applied to it, the sequence runs to its end,
`hev_task_get_priority` returns a value in `[PRIORITY_MIN, PRIORITY_MAX]`, and
once the sequence contains a `run` the task's priority and scheduling key lie in
that range too. -/
theorem priorities_stay_in_range (c : Config) (env : Env) (w : World) (stack_size : Int)
    (rec_reply stack_reply : Ptr) (ops : List TaskOp)
    (hdefault : c.HEV_TASK_PRIORITY_MIN ≤ c.HEV_TASK_PRIORITY_DEFAULT ∧
      c.HEV_TASK_PRIORITY_DEFAULT ≤ c.HEV_TASK_PRIORITY_MAX)
    (hrec : rec_reply ≠ NULL) (hstk : stack_reply ≠ NULL) (hne : stack_reply ≠ rec_reply)
    (hsched : RunNewTaskKeepsClosure env) (hreactor : ReactorSetupKeepsHeap env) :
    ∃ w1 w2 p, hev_task_new c w stack_size rec_reply stack_reply = Except.ok (rec_reply, w1) ∧
      run_task_ops c env w1 rec_reply ops = Except.ok w2 ∧
      hev_task_get_priority w2 rec_reply = Except.ok p ∧
      c.HEV_TASK_PRIORITY_MIN ≤ p ∧ p ≤ c.HEV_TASK_PRIORITY_MAX ∧
      (ops.any TaskOp.is_run = true →
        ∃ t, w2.heap rec_reply = some (Block.task t) ∧
          c.HEV_TASK_PRIORITY_MIN ≤ t.priority ∧ t.priority ≤ c.HEV_TASK_PRIORITY_MAX ∧
          c.HEV_TASK_PRIORITY_MIN ≤ t.sched_key ∧ t.sched_key ≤ c.HEV_TASK_PRIORITY_MAX) := by
  obtain ⟨w1, hnew, hheap, -, -, -, -⟩ :=
    hev_task_new_ok c w stack_size rec_reply stack_reply hrec hstk hne
  have hinv : PrioritiesInRange c w1 rec_reply false :=
    ⟨_, hheap, hdefault.1, hdefault.2, ⟨fun h => Bool.noConfusion h, fun _ => rfl⟩⟩
  obtain ⟨w2, hops, t, hlive, hlo, hhi, hran, -⟩ :=
    run_task_ops_keeps_range c env rec_reply ops (le_trans hdefault.1 hdefault.2) hsched hreactor
      w1 false hinv
  refine ⟨w1, w2, t.next_priority, hnew, hops, ?_, hlo, hhi, ?_⟩
  · simp [hev_task_get_priority, task_of_heap hlive, bind, Except.bind]
  · intro h
    exact ⟨t, hlive, hran (by simpa using h)⟩

/-- C18 instance: a new task that is given priority 99, referenced,
registered for a descriptor, run, and given priority -3. -/
theorem priorities_stay_in_range_witness :
    ∃ w1 w2 p, hev_task_new exampleConfig emptyWorld (-1) 4096 8192 = Except.ok (4096, w1) ∧
      run_task_ops exampleConfig exampleEnv w1 4096
        [TaskOp.set_priority 99, TaskOp.ref, TaskOp.add_fd 5 1, TaskOp.run 7 9,
          TaskOp.set_priority (-3)] = Except.ok w2 ∧
      hev_task_get_priority w2 4096 = Except.ok p ∧
      exampleConfig.HEV_TASK_PRIORITY_MIN ≤ p ∧ p ≤ exampleConfig.HEV_TASK_PRIORITY_MAX ∧
      ∃ t, w2.heap 4096 = some (Block.task t) ∧
        exampleConfig.HEV_TASK_PRIORITY_MIN ≤ t.priority ∧
        t.priority ≤ exampleConfig.HEV_TASK_PRIORITY_MAX ∧
        exampleConfig.HEV_TASK_PRIORITY_MIN ≤ t.sched_key ∧
        t.sched_key ≤ exampleConfig.HEV_TASK_PRIORITY_MAX := by
  obtain ⟨w1, w2, p, hnew, hops, hget, hlo, hhi, hran⟩ :=
    priorities_stay_in_range exampleConfig exampleEnv emptyWorld (-1) 4096 8192
      [TaskOp.set_priority 99, TaskOp.ref, TaskOp.add_fd 5 1, TaskOp.run 7 9,
        TaskOp.set_priority (-3)]
      (by decide) (by decide) (by decide) (by decide) exampleEnv_keeps_closure
      exampleEnv_keeps_heap
  exact ⟨w1, w2, p, hnew, hops, hget, hlo, hhi, hran (by decide)⟩

/-! ## Pending and active priority -/

/-- C19. `hev_task_get_priority` reports the pending priority.  Run a live
STOPPED task under a scheduler that does not overwrite the priorities: its
active priority and scheduling key are `q`, the pending priority at the time of
the run, and `hev_task_get_priority` returns `q`.  After a following
`hev_task_set_priority (p)`, `hev_task_get_priority` returns `p` clamped while
the active priority and the scheduling key are still `q`; so it still equals
the active priority iff `p` clamped is `q`. -/
theorem get_priority_reports_pending (c : Config) (env : Env) (w : World) (self : Ptr)
    (t : HevTask) (entry data : Ptr) (p : Int)
    (hlive : w.heap self = some (Block.task t))
    (hstate : t.state = HevTaskState.HEV_TASK_STOPPED)
    (hsched : RunNewTaskKeepsClosure env) :
    ∃ w1 t1 w2 t2, hev_task_run env w self entry data = Except.ok w1 ∧
      w1.heap self = some (Block.task t1) ∧
      t1.priority = t.next_priority ∧ t1.sched_key = t.next_priority ∧
      hev_task_get_priority w1 self = Except.ok t1.priority ∧
      hev_task_set_priority c w1 self p = Except.ok w2 ∧
      w2.heap self = some (Block.task t2) ∧
      hev_task_get_priority w2 self = Except.ok
        (if p < c.HEV_TASK_PRIORITY_MIN then c.HEV_TASK_PRIORITY_MIN
         else if p > c.HEV_TASK_PRIORITY_MAX then c.HEV_TASK_PRIORITY_MAX else p) ∧
      t2.priority = t.next_priority ∧ t2.sched_key = t.next_priority ∧
      (hev_task_get_priority w2 self = Except.ok t2.priority ↔
        (if p < c.HEV_TASK_PRIORITY_MIN then c.HEV_TASK_PRIORITY_MIN
         else if p > c.HEV_TASK_PRIORITY_MAX then c.HEV_TASK_PRIORITY_MAX else p)
          = t.next_priority) := by
  obtain ⟨w1, t1, hrun, hheap1, -, -, hp, hk, hn⟩ :=
    hev_task_run_stopped_post hlive hstate entry data hsched
  have hget1 : hev_task_get_priority w1 self = Except.ok t1.priority := by
    simp [hev_task_get_priority, task_of_heap hheap1, bind, Except.bind, hp, hn]
  have hset : hev_task_set_priority c w1 self p = Except.ok
      (w1.store self (Block.task { t1 with next_priority :=
        (if p < c.HEV_TASK_PRIORITY_MIN then c.HEV_TASK_PRIORITY_MIN
         else if p > c.HEV_TASK_PRIORITY_MAX then c.HEV_TASK_PRIORITY_MAX else p) })) := by
    simp [hev_task_set_priority, task_of_heap hheap1, bind, Except.bind]
  have hget2 : hev_task_get_priority
      (w1.store self (Block.task { t1 with next_priority :=
        (if p < c.HEV_TASK_PRIORITY_MIN then c.HEV_TASK_PRIORITY_MIN
         else if p > c.HEV_TASK_PRIORITY_MAX then c.HEV_TASK_PRIORITY_MAX else p) })) self
      = Except.ok
        (if p < c.HEV_TASK_PRIORITY_MIN then c.HEV_TASK_PRIORITY_MIN
         else if p > c.HEV_TASK_PRIORITY_MAX then c.HEV_TASK_PRIORITY_MAX else p) := by
    simp [hev_task_get_priority, bind, Except.bind]
  refine ⟨w1, t1, _, _, hrun, hheap1, hp, hk, hget1, hset, store_heap_self _ _ _, hget2, hp, hk,
    ?_⟩
  rw [hget2]
  show Except.ok _ = Except.ok t1.priority ↔ _
  rw [hp]
  constructor
  · intro h
    injection h
  · intro h
    rw [h]

/-- C19 instance: the example task is run with pending priority 8 and then
given priority 3: `hev_task_get_priority` returns 3 while the active priority
and the scheduling key are still 8. -/
theorem get_priority_reports_pending_witness :
    ∃ w1 w2 t2, hev_task_run exampleEnv exampleWorld 4096 7 9 = Except.ok w1 ∧
      hev_task_set_priority exampleConfig w1 4096 3 = Except.ok w2 ∧
      w2.heap 4096 = some (Block.task t2) ∧
      hev_task_get_priority w2 4096 = Except.ok 3 ∧
      t2.priority = 8 ∧ t2.sched_key = 8 ∧
      hev_task_get_priority w2 4096 ≠ Except.ok t2.priority := by
  obtain ⟨w1, t1, w2, t2, hrun, -, -, -, -, hset, hheap2, hget, hp, hk, hiff⟩ :=
    get_priority_reports_pending exampleConfig exampleEnv exampleWorld 4096 exampleTask 7 9 3
      rfl rfl exampleEnv_keeps_closure
  refine ⟨w1, w2, t2, hrun, hset, hheap2, hget, hp, hk, ?_⟩
  intro h
  have := hiff.mp h
  revert this
  decide

end Hev
